import Mathlib

/-!
Verification of the esbuild CLI option parser (`pkg/cli/cli_impl.go`).

The Go source is shallowly embedded: each Go function becomes a Lean
function over explicit state, and the argument loop of `parseOptionsImpl`
becomes a fold of a step function `argStep` that mirrors the Go `switch`
case by case, in source order.

Go strings are modelled as Lean `String`, and the byte-level operations
used by the source (`strings.HasPrefix`, `strings.IndexByte`, slicing)
are modelled on the underlying character list.  All patterns the source
uses with these operations are pure-ASCII, and for an ASCII pattern the
byte-level result of each operation coincides with the character-level
one (a multi-byte UTF-8 character has no byte below 0x80), so the
character-level model is faithful.
-/

namespace Esbuild

/-- The character `'` (written via its code point to keep source plain). -/
def singleQuote : Char := Char.ofNat 39

/-- The string `'--` used by the single-quote diagnostic in the parser. -/
def quoteDashDash : String := ⟨[singleQuote, Char.ofNat 45, Char.ofNat 45]⟩

/-- Character-list prefix test (same function as `List.isPrefixOf`, but
with the empty-pattern case decided without inspecting the other
list). -/
def charsIsPref : List Char → List Char → Bool
  | [], _ => true
  | _ :: _, [] => false
  | a :: as, b :: bs => a == b && charsIsPref as bs

/-- `strings.HasPrefix s p` (byte prefix; coincides with character prefix
for the ASCII patterns used in the source). -/
def goStartsWith (s p : String) : Bool := charsIsPref p.data s.data

/-- Byte equality of Go strings, i.e. equality of the character lists. -/
def goStrEq (s t : String) : Bool := s.data == t.data

/-- `s[n:]` for a byte offset `n` that falls on a character boundary. -/
def goDropStr (s : String) (n : Nat) : String := ⟨s.data.drop n⟩

/-- `s[:n]` for a byte offset `n` that falls on a character boundary. -/
def goTakeStr (s : String) (n : Nat) : String := ⟨s.data.take n⟩

/-- `s[a:b]` for byte offsets on character boundaries. -/
def goSlice (s : String) (a b : Nat) : String := ⟨(s.data.take b).drop a⟩

/-- `strings.IndexByte s c` as an `Option` (Go returns `-1` for `none`).
The bytes searched for in the source (`'='`, `':'`) are ASCII, so the
first matching byte is the first matching character. -/
def goIndexByte (s : String) (c : Char) : Option Nat :=
  s.data.findIdx? (fun d => d == c)

/-- `strings.ContainsRune s c` for an ASCII rune. -/
def goContainsRune (s : String) (c : Char) : Bool :=
  s.data.contains c

/-- The double-quote wrapping done by `fmt.Sprintf("%q", s)`.  The escape
rules of `%q` for exotic characters are not modelled; every claim checked
here compares error values produced by this same definition. -/
def goQuote (s : String) : String := "\"" ++ s ++ "\""

/-- `strconv.Atoi`: optional sign followed by a non-empty digit string.
The 64-bit overflow failure of Go's `Atoi` is not modelled (no claim
depends on it); the value is an unbounded integer. -/
def goDigits : List Char → Option Nat
  | [] => none
  | [c] => if c.isDigit then some (c.toNat - 48) else none
  | c :: rest =>
    if c.isDigit then
      match goDigits rest with
      | some n => some ((c.toNat - 48) * 10 ^ rest.length + n)
      | none => none
    else none

def goAtoi (s : String) : Option Int :=
  match s.data with
  | [] => none
  | c :: rest =>
    if c == Char.ofNat 43 then (goDigits rest).map (fun n => (n : Int))
    else if c == Char.ofNat 45 then (goDigits rest).map (fun n => -(n : Int))
    else (goDigits s.data).map (fun n => (n : Int))

/-- `strconv.ParseInt(s, 10, 32)`: like `goAtoi` but failing (Go's
`ErrRange`) outside the `Int32` range, which is what `bitSize = 32`
enforces. -/
def goParseIntDec32 (s : String) : Option Int :=
  match goAtoi s with
  | none => none
  | some v => if v < -(2 ^ 31 : Int) || v > 2 ^ 31 - 1 then none else some v

/-- `cli_helpers.ErrorWithNote`. -/
structure ErrorWithNote where
  text : String
  note : String
deriving DecidableEq, Repr

/-- `cli_helpers.MakeErrorWithNote`. -/
def MakeErrorWithNote (text note : String) : ErrorWithNote := ⟨text, note⟩

/-! ### Enumerations from `pkg/api` (not included under `src/`; only the
constructor identities matter for the parser, and they mirror the public
esbuild API). -/

inductive SourceMap
  | SourceMapNone | SourceMapInline | SourceMapLinked | SourceMapExternal
  | SourceMapInlineAndExternal
deriving DecidableEq, Repr

inductive Format
  | FormatDefault | FormatIIFE | FormatCommonJS | FormatESModule
deriving DecidableEq, Repr

inductive TreeShaking
  | TreeShakingDefault | TreeShakingTrue | TreeShakingFalse
deriving DecidableEq, Repr

inductive MangleQuoted
  | MangleQuotedFalse | MangleQuotedTrue
deriving DecidableEq, Repr

inductive LegalComments
  | LegalCommentsDefault | LegalCommentsNone | LegalCommentsInline
  | LegalCommentsEndOfFile | LegalCommentsLinked | LegalCommentsExternal
deriving DecidableEq, Repr

inductive Charset
  | CharsetDefault | CharsetASCII | CharsetUTF8
deriving DecidableEq, Repr

inductive SourcesContent
  | SourcesContentInclude | SourcesContentExclude
deriving DecidableEq, Repr

inductive Platform
  | PlatformDefault | PlatformBrowser | PlatformNode | PlatformNeutral
deriving DecidableEq, Repr

inductive Packages
  | PackagesDefault | PackagesBundle | PackagesExternal
deriving DecidableEq, Repr

inductive JSX
  | JSXTransform | JSXPreserve | JSXAutomatic
deriving DecidableEq, Repr

inductive Loader
  | LoaderNone | LoaderBase64 | LoaderBinary | LoaderCopy | LoaderCSS
  | LoaderDataURL | LoaderDefault | LoaderEmpty | LoaderFile
  | LoaderGlobalCSS | LoaderJS | LoaderJSON | LoaderJSX | LoaderLocalCSS
  | LoaderText | LoaderTS | LoaderTSX
deriving DecidableEq, Repr

inductive StderrColor
  | ColorIfTerminal | ColorNever | ColorAlways
deriving DecidableEq, Repr

inductive LogLevel
  | LogLevelSilent | LogLevelVerbose | LogLevelDebug | LogLevelInfo
  | LogLevelWarning | LogLevelError
deriving DecidableEq, Repr

inductive Target
  | TargetDefault | ESNext | ES5 | ES2015 | ES2016 | ES2017 | ES2018
  | ES2019 | ES2020 | ES2021 | ES2022 | ES2023 | ES2024
deriving DecidableEq, Repr

/-- `api.Drop` bit set. -/
structure DropFlags where
  console : Bool := false
  debuggerStmt : Bool := false
deriving DecidableEq, Repr

/-- `api.AbsPaths` bit set. -/
structure AbsPathsFlags where
  code : Bool := false
  log : Bool := false
  metafile : Bool := false
deriving DecidableEq, Repr

structure Engine where
  name : String
  version : String
deriving DecidableEq, Repr

structure StdinOptions where
  Contents : String := ""
  ResolveDir : String := ""
  Sourcefile : String := ""
  Loader : Loader := .LoaderNone
deriving DecidableEq, Repr

structure EntryPoint where
  InputPath : String
  OutputPath : String
deriving DecidableEq, Repr

/-- Go map assignment `m[k] = v` on an association-list model of a map. -/
def mapSet {α : Type} : List (String × α) → String → α → List (String × α)
  | [], k, v => [(k, v)]
  | (k', v') :: rest, k, v =>
    if goStrEq k' k then (k, v) :: rest else (k', v') :: mapSet rest k v

/-- `api.BuildOptions`, restricted to the fields the CLI parser touches.
Defaults are the Go zero values; `newBuildOptions` only allocates the
(empty) maps, which the association-list model gives for free. -/
structure BuildOptions where
  Bundle : Bool := false
  PreserveSymlinks : Bool := false
  Splitting : Bool := false
  AllowOverwrite : Bool := false
  MinifySyntax : Bool := false
  MinifyWhitespace : Bool := false
  MinifyIdentifiers : Bool := false
  MangleQuoted : MangleQuoted := .MangleQuotedFalse
  MangleProps : String := ""
  ReserveProps : String := ""
  Drop : DropFlags := {}
  DropLabels : List String := []
  LegalComments : LegalComments := .LegalCommentsDefault
  Charset : Charset := .CharsetDefault
  TreeShaking : TreeShaking := .TreeShakingDefault
  IgnoreAnnotations : Bool := false
  KeepNames : Bool := false
  Sourcemap : SourceMap := .SourceMapNone
  SourceRoot : String := ""
  SourcesContent : SourcesContent := .SourcesContentInclude
  Stdin : Option StdinOptions := none
  ResolveExtensions : List String := []
  MainFields : List String := []
  Conditions : List String := []
  PublicPath : String := ""
  GlobalName : String := ""
  Metafile : Bool := false
  Outfile : String := ""
  Outdir : String := ""
  Outbase : String := ""
  Tsconfig : String := ""
  TsconfigRaw : String := ""
  EntryNames : String := ""
  ChunkNames : String := ""
  AssetNames : String := ""
  Define : List (String × String) := []
  LogOverride : List (String × LogLevel) := []
  AbsPaths : AbsPathsFlags := {}
  Supported : List (String × Bool) := []
  Pure : List String := []
  Loader : List (String × Loader) := []
  Target : Target := .TargetDefault
  Engines : List Engine := []
  OutExtension : List (String × String) := []
  Platform : Platform := .PlatformDefault
  Format : Format := .FormatDefault
  Packages : Packages := .PackagesDefault
  External : List String := []
  Inject : List String := []
  Alias : List (String × String) := []
  JSX : JSX := .JSXTransform
  JSXFactory : String := ""
  JSXFragment : String := ""
  JSXImportSource : String := ""
  JSXDev : Bool := false
  JSXSideEffects : Bool := false
  Banner : List (String × String) := []
  Footer : List (String × String) := []
  LogLimit : Int := 0
  LineLimit : Int := 0
  Color : StderrColor := .ColorIfTerminal
  LogLevel : LogLevel := .LogLevelSilent
  EntryPoints : List String := []
  EntryPointsAdvanced : List EntryPoint := []
  Write : Bool := false
deriving DecidableEq, Repr

/-- `api.TransformOptions`, restricted to the fields the CLI parser
touches. -/
structure TransformOptions where
  MinifySyntax : Bool := false
  MinifyWhitespace : Bool := false
  MinifyIdentifiers : Bool := false
  MangleQuoted : MangleQuoted := .MangleQuotedFalse
  MangleProps : String := ""
  ReserveProps : String := ""
  Drop : DropFlags := {}
  DropLabels : List String := []
  LegalComments : LegalComments := .LegalCommentsDefault
  Charset : Charset := .CharsetDefault
  TreeShaking : TreeShaking := .TreeShakingDefault
  IgnoreAnnotations : Bool := false
  KeepNames : Bool := false
  Sourcemap : SourceMap := .SourceMapNone
  SourceRoot : String := ""
  SourcesContent : SourcesContent := .SourcesContentInclude
  Sourcefile : String := ""
  GlobalName : String := ""
  TsconfigRaw : String := ""
  Define : List (String × String) := []
  LogOverride : List (String × LogLevel) := []
  AbsPaths : AbsPathsFlags := {}
  Supported : List (String × Bool) := []
  Pure : List String := []
  Loader : Loader := .LoaderNone
  Target : Target := .TargetDefault
  Engines : List Engine := []
  Platform : Platform := .PlatformDefault
  Format : Format := .FormatDefault
  JSX : JSX := .JSXTransform
  JSXFactory : String := ""
  JSXFragment : String := ""
  JSXImportSource : String := ""
  JSXDev : Bool := false
  JSXSideEffects : Bool := false
  Banner : String := ""
  Footer : String := ""
  LogLimit : Int := 0
  LineLimit : Int := 0
  Color : StderrColor := .ColorIfTerminal
  LogLevel : LogLevel := .LogLevelSilent
deriving DecidableEq, Repr

/-- `newBuildOptions`: the zero struct with the maps allocated. -/
def newBuildOptions : BuildOptions := {}

/-- `newTransformOptions`. -/
def newTransformOptions : TransformOptions := {}

/-- `parseOptionsKind`. -/
inductive ParseOptionsKind
  | kindInternal | kindExternal
deriving DecidableEq, Repr

/-- `parseOptionsExtras`. -/
structure ParseOptionsExtras where
  watch : Bool := false
  watchDelay : Int := 0
  metafile : Option String := none
  mangleCache : Option String := none
deriving DecidableEq, Repr

/-- In the Go source, `parseOptionsImpl` receives a `*BuildOptions` and a
`*TransformOptions` of which every caller passes exactly one non-nil; the
mode is modelled as a sum. -/
inductive Opts
  | build (b : BuildOptions)
  | transform (t : TransformOptions)
deriving DecidableEq, Repr

/-- `buildOpts != nil` at a call site of the source. -/
def Opts.isBuild : Opts → Bool
  | .build _ => true
  | .transform _ => false

/-- Apply an update in whichever mode is active (the pervasive
`if buildOpts != nil { ... } else { ... }` pattern of the source). -/
def Opts.set (o : Opts) (fb : BuildOptions → BuildOptions)
    (ft : TransformOptions → TransformOptions) : Opts :=
  match o with
  | .build b => .build (fb b)
  | .transform t => .transform (ft t)

/-- `isBoolFlag`. -/
def isBoolFlag (arg flag : String) : Bool :=
  if goStartsWith arg flag then
    match (goDropStr arg flag.data.length).data with
    | [] => true
    | c :: _ => c == Char.ofNat 61
  else false

/-- `parseBoolFlag`. -/
def parseBoolFlag (arg : String) (defaultValue : Bool) :
    Except ErrorWithNote Bool :=
  match goIndexByte arg (Char.ofNat 61) with
  | none => .ok defaultValue
  | some equals =>
    let value := goDropStr arg (equals + 1)
    if goStrEq value "false" then .ok false
    else if goStrEq value "true" then .ok true
    else .error (MakeErrorWithNote
      ("Invalid value " ++ goQuote value ++ " in " ++ goQuote arg)
      "Valid values are \"true\" or \"false\".")

/-- `splitWithEmptyCheck`. -/
def splitWithEmptyCheck (s sep : String) : List String :=
  if goStrEq s "" then [] else s.splitOn sep

/-- `parseLogLevel`. -/
def parseLogLevel (value arg : String) :
    Except ErrorWithNote LogLevel :=
  if goStrEq value "verbose" then .ok .LogLevelVerbose
  else if goStrEq value "debug" then .ok .LogLevelDebug
  else if goStrEq value "info" then .ok .LogLevelInfo
  else if goStrEq value "warning" then .ok .LogLevelWarning
  else if goStrEq value "error" then .ok .LogLevelError
  else if goStrEq value "silent" then .ok .LogLevelSilent
  else .error (MakeErrorWithNote
    ("Invalid value " ++ goQuote value ++ " in " ++ goQuote arg)
    "Valid values are \"verbose\", \"debug\", \"info\", \"warning\", \"error\", or \"silent\".")

/-- The string holding just the `'` character. -/
def singleQuoteStr : String := ⟨[singleQuote]⟩

/-- ASCII lowering, as `strings.ToLower` behaves on the ASCII target
names compared by `parseTargets`. -/
def strToLower (s : String) : String := ⟨s.data.map Char.toLower⟩

/-- The `validTargets` table of `parseTargets`. -/
def lookupValidTarget (v : String) : Option Target :=
  if goStrEq v "esnext" then some .ESNext
  else if goStrEq v "es5" then some .ES5
  else if goStrEq v "es6" then some .ES2015
  else if goStrEq v "es2015" then some .ES2015
  else if goStrEq v "es2016" then some .ES2016
  else if goStrEq v "es2017" then some .ES2017
  else if goStrEq v "es2018" then some .ES2018
  else if goStrEq v "es2019" then some .ES2019
  else if goStrEq v "es2020" then some .ES2020
  else if goStrEq v "es2021" then some .ES2021
  else if goStrEq v "es2022" then some .ES2022
  else if goStrEq v "es2023" then some .ES2023
  else if goStrEq v "es2024" then some .ES2024
  else none

/-- The engine scan of `parseTargets`: the first `validEngines` entry
whose CLI name is a prefix of the value, together with the remaining
version text.  `validEngines` lives outside `src/` and is passed in; its
actual keys are mutually prefix-free, so the Go map-iteration order
cannot affect which entry matches. -/
def findEnginePref : List (String × String) → String → Option (String × String)
  | [], _ => none
  | (engine, name) :: rest, value =>
    if goStartsWith value engine then
      some (name, goDropStr value engine.data.length)
    else findEnginePref rest value

def insertSorted (s : String) : List String → List String
  | [] => [s]
  | t :: rest => if s < t then s :: t :: rest else t :: insertSorted s rest

/-- `sort.Strings` (lexicographic byte order; the sorted strings here are
ASCII). -/
def sortStrings (l : List String) : List String := l.foldr insertSorted []

/-- `strings.Join l ", "`. -/
def joinCommaSpace : List String → String
  | [] => ""
  | [s] => s
  | s :: rest => s ++ ", " ++ joinCommaSpace rest

/-- The note text of the invalid-target diagnostic. -/
def invalidTargetNote (validEngines : List (String × String)) : String :=
  let es := sortStrings ("\"esN\"" :: validEngines.map (fun p => goQuote (p.1 ++ "N")))
  "Valid values are " ++ joinCommaSpace es.dropLast ++ ", or " ++
    (es.getLast?.getD "") ++ " where N is a version number."

/-- `parseTargets`: the accumulating loop over the comma-separated
values. -/
def parseTargetsGo (validEngines : List (String × String)) (arg : String) :
    List String → Target → List Engine → Except ErrorWithNote (Target × List Engine)
  | [], target, engines => .ok (target, engines)
  | value :: rest, target, engines =>
    match lookupValidTarget (strToLower value) with
    | some t => parseTargetsGo validEngines arg rest t engines
    | none =>
      match findEnginePref validEngines value with
      | some (name, version) =>
        if goStrEq version "" then
          .error (MakeErrorWithNote
            ("Target " ++ goQuote value ++ " is missing a version number in " ++ goQuote arg) "")
        else parseTargetsGo validEngines arg rest target (engines ++ [⟨name, version⟩])
      | none =>
        .error (MakeErrorWithNote
          ("Invalid target " ++ goQuote value ++ " in " ++ goQuote arg)
          (invalidTargetNote validEngines))

def parseTargets (validEngines : List (String × String))
    (targets : List String) (arg : String) :
    Except ErrorWithNote (Target × List Engine) :=
  parseTargetsGo validEngines arg targets .TargetDefault []

/-- The `--abs-paths=` value loop. -/
def parseAbsPaths (arg : String) :
    List String → AbsPathsFlags → Except ErrorWithNote AbsPathsFlags
  | [], acc => .ok acc
  | value :: rest, acc =>
    if goStrEq value "code" then parseAbsPaths arg rest { acc with code := true }
    else if goStrEq value "log" then parseAbsPaths arg rest { acc with log := true }
    else if goStrEq value "metafile" then parseAbsPaths arg rest { acc with metafile := true }
    else .error (MakeErrorWithNote
      ("Invalid value " ++ goQuote value ++ " in " ++ goQuote arg)
      "Valid values are \"code\", \"log\", or \"metafile\".")

/-- the `bare` flag table of the default case. -/
def bareFlags : List String :=
  ["allow-overwrite", "bundle", "ignore-annotations", "jsx-dev",
   "jsx-side-effects", "keep-names", "minify-identifiers", "minify-syntax",
   "minify-whitespace", "minify", "preserve-symlinks", "sourcemap",
   "splitting", "watch"]

/-- the `equals` flag table of the default case. -/
def equalsFlags : List String :=
  ["abs-paths", "allow-overwrite", "asset-names", "banner", "bundle",
   "certfile", "charset", "chunk-names", "color", "conditions",
   "cors-origin", "drop-labels", "entry-names", "footer", "format",
   "global-name", "ignore-annotations", "jsx-factory", "jsx-fragment",
   "jsx-import-source", "jsx", "keep-names", "keyfile", "legal-comments",
   "loader", "log-level", "log-limit", "main-fields", "mangle-cache",
   "mangle-props", "mangle-quoted", "metafile", "minify-identifiers",
   "minify-syntax", "minify-whitespace", "minify", "outbase", "outdir",
   "outfile", "packages", "platform", "preserve-symlinks", "public-path",
   "reserve-props", "resolve-extensions", "serve-fallback", "serve",
   "servedir", "source-root", "sourcefile", "sourcemap",
   "sources-content", "splitting", "target", "tree-shaking",
   "tsconfig-raw", "tsconfig", "watch", "watch-delay"]

/-- the `colon` flag table of the default case. -/
def colonFlags : List String :=
  ["alias", "banner", "define", "drop", "external", "footer", "inject",
   "loader", "log-override", "out-extension", "pure", "supported"]

/-- The hint note computed by the default (invalid flag) case. -/
def invalidFlagNote (arg : String) : String :=
  if goStrEq arg "-o" then
    "Use \"--outfile=\" to configure the output file instead of \"-o\"."
  else if goStrEq arg "-v" then
    "Use \"--log-level=verbose\" to generate verbose logs instead of \"-v\"."
  else if goStartsWith arg "--" then
    let n1 :=
      match goIndexByte arg '=' with
      | some i =>
        if colonFlags.contains (goSlice arg 2 i) then
          "Use " ++ goQuote (goTakeStr arg i ++ ":" ++ goDropStr arg (i + 1)) ++
            " instead of " ++ goQuote arg ++
            ". Flags that can be re-specified multiple times use \":\" instead of \"=\"."
        else ""
      | none => ""
    match goIndexByte arg ':' with
    | some i =>
      if equalsFlags.contains (goSlice arg 2 i) then
        "Use " ++ goQuote (goTakeStr arg i ++ "=" ++ goDropStr arg (i + 1)) ++
          " instead of " ++ goQuote arg ++
          ". Flags that can only be specified once use \"=\" instead of \":\"."
      else n1
    | none => n1
  else if goStartsWith arg "-" then
    let isValid0 := bareFlags.contains (goDropStr arg 1)
    let fix0 := "-" ++ arg
    let p :=
      match goIndexByte arg '=' with
      | some i =>
        if equalsFlags.contains (goSlice arg 1 i) then (true, fix0)
        else if colonFlags.contains (goSlice arg 1 i) then
          (true, "-" ++ goTakeStr arg i ++ ":" ++ goDropStr arg (i + 1))
        else
          match goIndexByte arg ':' with
          | some j =>
            if colonFlags.contains (goSlice arg 1 j) then (true, fix0)
            else if equalsFlags.contains (goSlice arg 1 j) then
              (true, "-" ++ goTakeStr arg j ++ "=" ++ goDropStr arg (j + 1))
            else (isValid0, fix0)
          | none => (isValid0, fix0)
      | none =>
        match goIndexByte arg ':' with
        | some j =>
          if colonFlags.contains (goSlice arg 1 j) then (true, fix0)
          else if equalsFlags.contains (goSlice arg 1 j) then
            (true, "-" ++ goTakeStr arg j ++ "=" ++ goDropStr arg (j + 1))
          else (isValid0, fix0)
        | none => (isValid0, fix0)
    if p.1 then
      "Use " ++ goQuote p.2 ++ " instead of " ++ goQuote arg ++
        ". Flags are always specified with two dashes instead of one dash."
    else ""
  else ""

/-- The note of the unexpected-single-quote diagnostic (the apostrophe is
assembled explicitly to keep the Lean source plain). -/
def singleQuoteNote : String :=
  "This typically happens when attempting to use single quotes to quote arguments with a shell that doesn" ++
    singleQuoteStr ++
    "t recognize single quotes. Try using double quote characters to quote arguments instead."

/-- Helpers the CLI calls into that live outside `src/`:
`cli_helpers.ParseLoader` and the `validEngines` table.  They are
treated as opaque parameters of the parser. -/
structure Externals where
  ParseLoader : String → Except ErrorWithNote Loader
  validEngines : List (String × String)

/-- The loop state of `parseOptionsImpl`: the option struct being
mutated, the extras, and the local `hasBareSourceMapFlag`. -/
structure LoopState where
  opts : Opts
  extras : ParseOptionsExtras := {}
  hasBareSourceMapFlag : Bool := false

/-- Switch case of `parseOptionsImpl` for the `--bundle` case. -/
def argCaseBundle (ext : Externals) (kind : ParseOptionsKind) (st : LoopState)
    (arg : String) : Except ErrorWithNote LoopState :=
  match parseBoolFlag arg true with
  | .error e => .error e
  | .ok value => .ok { st with opts := st.opts.set (fun b => { b with Bundle := value }) id }

/-- Switch case of `parseOptionsImpl` for the `--preserve-symlinks` case. -/
def argCasePreserveSymlinks (ext : Externals) (kind : ParseOptionsKind) (st : LoopState)
    (arg : String) : Except ErrorWithNote LoopState :=
  match parseBoolFlag arg true with
  | .error e => .error e
  | .ok value => .ok { st with opts := st.opts.set (fun b => { b with PreserveSymlinks := value }) id }

/-- Switch case of `parseOptionsImpl` for the `--splitting` case. -/
def argCaseSplitting (ext : Externals) (kind : ParseOptionsKind) (st : LoopState)
    (arg : String) : Except ErrorWithNote LoopState :=
  match parseBoolFlag arg true with
  | .error e => .error e
  | .ok value => .ok { st with opts := st.opts.set (fun b => { b with Splitting := value }) id }

/-- Switch case of `parseOptionsImpl` for the `--allow-overwrite` case. -/
def argCaseAllowOverwrite (ext : Externals) (kind : ParseOptionsKind) (st : LoopState)
    (arg : String) : Except ErrorWithNote LoopState :=
  match parseBoolFlag arg true with
  | .error e => .error e
  | .ok value => .ok { st with opts := st.opts.set (fun b => { b with AllowOverwrite := value }) id }

/-- Switch case of `parseOptionsImpl` for the `--watch` case. -/
def argCaseWatch (ext : Externals) (kind : ParseOptionsKind) (st : LoopState)
    (arg : String) : Except ErrorWithNote LoopState :=
  match parseBoolFlag arg true with
  | .error e => .error e
  | .ok value => .ok { st with extras := { st.extras with watch := value } }

/-- Switch case of `parseOptionsImpl` for the `--watch-delay=` case. -/
def argCaseWatchDelay (ext : Externals) (kind : ParseOptionsKind) (st : LoopState)
    (arg : String) : Except ErrorWithNote LoopState :=
  let value := goDropStr arg 14
  match goAtoi value with
  | none => .error (MakeErrorWithNote
      ("Invalid value " ++ goQuote value ++ " in " ++ goQuote arg)
      "The watch delay must be an integer.")
  | some delay => .ok { st with extras := { st.extras with watchDelay := delay } }

/-- Switch case of `parseOptionsImpl` for the `--minify` case. -/
def argCaseMinify (ext : Externals) (kind : ParseOptionsKind) (st : LoopState)
    (arg : String) : Except ErrorWithNote LoopState :=
  match parseBoolFlag arg true with
  | .error e => .error e
  | .ok value => .ok { st with opts := st.opts.set (fun b => { b with MinifySyntax := value, MinifyWhitespace := value, MinifyIdentifiers := value }) (fun t => { t with MinifySyntax := value, MinifyWhitespace := value, MinifyIdentifiers := value }) }

/-- Switch case of `parseOptionsImpl` for the `--minify-syntax` case. -/
def argCaseMinifySyntax (ext : Externals) (kind : ParseOptionsKind) (st : LoopState)
    (arg : String) : Except ErrorWithNote LoopState :=
  match parseBoolFlag arg true with
  | .error e => .error e
  | .ok value => .ok { st with opts := st.opts.set (fun b => { b with MinifySyntax := value }) (fun t => { t with MinifySyntax := value }) }

/-- Switch case of `parseOptionsImpl` for the `--minify-whitespace` case. -/
def argCaseMinifyWhitespace (ext : Externals) (kind : ParseOptionsKind) (st : LoopState)
    (arg : String) : Except ErrorWithNote LoopState :=
  match parseBoolFlag arg true with
  | .error e => .error e
  | .ok value => .ok { st with opts := st.opts.set (fun b => { b with MinifyWhitespace := value }) (fun t => { t with MinifyWhitespace := value }) }

/-- Switch case of `parseOptionsImpl` for the `--minify-identifiers` case. -/
def argCaseMinifyIdentifiers (ext : Externals) (kind : ParseOptionsKind) (st : LoopState)
    (arg : String) : Except ErrorWithNote LoopState :=
  match parseBoolFlag arg true with
  | .error e => .error e
  | .ok value => .ok { st with opts := st.opts.set (fun b => { b with MinifyIdentifiers := value }) (fun t => { t with MinifyIdentifiers := value }) }

/-- Switch case of `parseOptionsImpl` for the `--mangle-quoted` case. -/
def argCaseMangleQuoted (ext : Externals) (kind : ParseOptionsKind) (st : LoopState)
    (arg : String) : Except ErrorWithNote LoopState :=
  match parseBoolFlag arg true with
  | .error e => .error e
  | .ok value =>
    let mq := if value then MangleQuoted.MangleQuotedTrue else MangleQuoted.MangleQuotedFalse
    .ok { st with opts := st.opts.set (fun b => { b with MangleQuoted := mq }) (fun t => { t with MangleQuoted := mq }) }

/-- Switch case of `parseOptionsImpl` for the `--mangle-props=` case. -/
def argCaseMangleProps (ext : Externals) (kind : ParseOptionsKind) (st : LoopState)
    (arg : String) : Except ErrorWithNote LoopState :=
  let value := goDropStr arg 15
  .ok { st with opts := st.opts.set (fun b => { b with MangleProps := value }) (fun t => { t with MangleProps := value }) }

/-- Switch case of `parseOptionsImpl` for the `--reserve-props=` case. -/
def argCaseReserveProps (ext : Externals) (kind : ParseOptionsKind) (st : LoopState)
    (arg : String) : Except ErrorWithNote LoopState :=
  let value := goDropStr arg 16
  .ok { st with opts := st.opts.set (fun b => { b with ReserveProps := value }) (fun t => { t with ReserveProps := value }) }

/-- Switch case of `parseOptionsImpl` for the `--mangle-cache=` case. -/
def argCaseMangleCache (ext : Externals) (kind : ParseOptionsKind) (st : LoopState)
    (arg : String) : Except ErrorWithNote LoopState :=
  let value := goDropStr arg 15
  .ok { st with extras := { st.extras with mangleCache := some value } }

/-- Switch case of `parseOptionsImpl` for the `--drop:` case. -/
def argCaseDropColon (ext : Externals) (kind : ParseOptionsKind) (st : LoopState)
    (arg : String) : Except ErrorWithNote LoopState :=
  let value := goDropStr arg 7
  if goStrEq value "console" then
    .ok { st with opts := st.opts.set (fun b => { b with Drop := { b.Drop with console := true } }) (fun t => { t with Drop := { t.Drop with console := true } }) }
  else if goStrEq value "debugger" then
    .ok { st with opts := st.opts.set (fun b => { b with Drop := { b.Drop with debuggerStmt := true } }) (fun t => { t with Drop := { t.Drop with debuggerStmt := true } }) }
  else .error (MakeErrorWithNote
    ("Invalid value " ++ goQuote value ++ " in " ++ goQuote arg)
    "Valid values are \"console\" or \"debugger\".")

/-- Switch case of `parseOptionsImpl` for the `--drop-labels=` case. -/
def argCaseDropLabels (ext : Externals) (kind : ParseOptionsKind) (st : LoopState)
    (arg : String) : Except ErrorWithNote LoopState :=
  let value := splitWithEmptyCheck (goDropStr arg 14) ","
  .ok { st with opts := st.opts.set (fun b => { b with DropLabels := value }) (fun t => { t with DropLabels := value }) }

/-- Switch case of `parseOptionsImpl` for the `--legal-comments=` case. -/
def argCaseLegalComments (ext : Externals) (kind : ParseOptionsKind) (st : LoopState)
    (arg : String) : Except ErrorWithNote LoopState :=
  let value := goDropStr arg 17
  let lc : Except ErrorWithNote LegalComments :=
    if goStrEq value "none" then .ok .LegalCommentsNone
    else if goStrEq value "inline" then .ok .LegalCommentsInline
    else if goStrEq value "eof" then .ok .LegalCommentsEndOfFile
    else if goStrEq value "linked" then .ok .LegalCommentsLinked
    else if goStrEq value "external" then .ok .LegalCommentsExternal
    else .error (MakeErrorWithNote
      ("Invalid value " ++ goQuote value ++ " in " ++ goQuote arg)
      "Valid values are \"none\", \"inline\", \"eof\", \"linked\", or \"external\".")
  match lc with
  | .error e => .error e
  | .ok legalComments => .ok { st with opts := st.opts.set (fun b => { b with LegalComments := legalComments }) (fun t => { t with LegalComments := legalComments }) }

/-- Switch case of `parseOptionsImpl` for the `--charset=` case. -/
def argCaseCharset (ext : Externals) (kind : ParseOptionsKind) (st : LoopState)
    (arg : String) : Except ErrorWithNote LoopState :=
  let name := goDropStr arg 10
  if goStrEq name "ascii" then
    .ok { st with opts := st.opts.set (fun b => { b with Charset := .CharsetASCII }) (fun t => { t with Charset := .CharsetASCII }) }
  else if goStrEq name "utf8" then
    .ok { st with opts := st.opts.set (fun b => { b with Charset := .CharsetUTF8 }) (fun t => { t with Charset := .CharsetUTF8 }) }
  else .error (MakeErrorWithNote
    ("Invalid value " ++ goQuote name ++ " in " ++ goQuote arg)
    "Valid values are \"ascii\" or \"utf8\".")

/-- Switch case of `parseOptionsImpl` for the `--tree-shaking` case. -/
def argCaseTreeShaking (ext : Externals) (kind : ParseOptionsKind) (st : LoopState)
    (arg : String) : Except ErrorWithNote LoopState :=
  match parseBoolFlag arg true with
  | .error e => .error e
  | .ok value =>
    let ts := if value then TreeShaking.TreeShakingTrue else TreeShaking.TreeShakingFalse
    .ok { st with opts := st.opts.set (fun b => { b with TreeShaking := ts }) (fun t => { t with TreeShaking := ts }) }

/-- Switch case of `parseOptionsImpl` for the `--ignore-annotations` case. -/
def argCaseIgnoreAnnotations (ext : Externals) (kind : ParseOptionsKind) (st : LoopState)
    (arg : String) : Except ErrorWithNote LoopState :=
  match parseBoolFlag arg true with
  | .error e => .error e
  | .ok value => .ok { st with opts := st.opts.set (fun b => { b with IgnoreAnnotations := value }) (fun t => { t with IgnoreAnnotations := value }) }

/-- Switch case of `parseOptionsImpl` for the `--keep-names` case. -/
def argCaseKeepNames (ext : Externals) (kind : ParseOptionsKind) (st : LoopState)
    (arg : String) : Except ErrorWithNote LoopState :=
  match parseBoolFlag arg true with
  | .error e => .error e
  | .ok value => .ok { st with opts := st.opts.set (fun b => { b with KeepNames := value }) (fun t => { t with KeepNames := value }) }

/-- Switch case of `parseOptionsImpl` for the `--sourcemap` case. -/
def argCaseSourcemapBare (ext : Externals) (kind : ParseOptionsKind) (st : LoopState)
    (arg : String) : Except ErrorWithNote LoopState :=
  .ok { st with opts := st.opts.set (fun b => { b with Sourcemap := .SourceMapLinked }) (fun t => { t with Sourcemap := .SourceMapInline }), hasBareSourceMapFlag := true }

/-- Switch case of `parseOptionsImpl` for the `--sourcemap=` case. -/
def argCaseSourcemap (ext : Externals) (kind : ParseOptionsKind) (st : LoopState)
    (arg : String) : Except ErrorWithNote LoopState :=
  let value := goDropStr arg 12
  let sm : Except ErrorWithNote SourceMap :=
    if goStrEq value "linked" then .ok .SourceMapLinked
    else if goStrEq value "inline" then .ok .SourceMapInline
    else if goStrEq value "external" then .ok .SourceMapExternal
    else if goStrEq value "both" then .ok .SourceMapInlineAndExternal
    else .error (MakeErrorWithNote
      ("Invalid value " ++ goQuote value ++ " in " ++ goQuote arg)
      "Valid values are \"linked\", \"inline\", \"external\", or \"both\".")
  match sm with
  | .error e => .error e
  | .ok sourcemap =>
    .ok { st with opts := st.opts.set (fun b => { b with Sourcemap := sourcemap }) (fun t => { t with Sourcemap := sourcemap }), hasBareSourceMapFlag := false }

/-- Switch case of `parseOptionsImpl` for the `--source-root=` case. -/
def argCaseSourceRoot (ext : Externals) (kind : ParseOptionsKind) (st : LoopState)
    (arg : String) : Except ErrorWithNote LoopState :=
  let sourceRoot := goDropStr arg 14
  .ok { st with opts := st.opts.set (fun b => { b with SourceRoot := sourceRoot }) (fun t => { t with SourceRoot := sourceRoot }) }

/-- Switch case of `parseOptionsImpl` for the `--sources-content` case. -/
def argCaseSourcesContent (ext : Externals) (kind : ParseOptionsKind) (st : LoopState)
    (arg : String) : Except ErrorWithNote LoopState :=
  match parseBoolFlag arg true with
  | .error e => .error e
  | .ok value =>
    let sc := if value then SourcesContent.SourcesContentInclude else SourcesContent.SourcesContentExclude
    .ok { st with opts := st.opts.set (fun b => { b with SourcesContent := sc }) (fun t => { t with SourcesContent := sc }) }

/-- Switch case of `parseOptionsImpl` for the `--sourcefile=` case. -/
def argCaseSourcefile (ext : Externals) (kind : ParseOptionsKind) (st : LoopState)
    (arg : String) : Except ErrorWithNote LoopState :=
  let value := goDropStr arg 13
  .ok { st with opts := st.opts.set (fun b => { b with Stdin := some { b.Stdin.getD {} with Sourcefile := value } }) (fun t => { t with Sourcefile := value }) }

/-- Switch case of `parseOptionsImpl` for the `--resolve-extensions=` case. -/
def argCaseResolveExtensions (ext : Externals) (kind : ParseOptionsKind) (st : LoopState)
    (arg : String) : Except ErrorWithNote LoopState :=
  .ok { st with opts := st.opts.set (fun b => { b with ResolveExtensions := splitWithEmptyCheck (goDropStr arg 21) "," }) id }

/-- Switch case of `parseOptionsImpl` for the `--main-fields=` case. -/
def argCaseMainFields (ext : Externals) (kind : ParseOptionsKind) (st : LoopState)
    (arg : String) : Except ErrorWithNote LoopState :=
  .ok { st with opts := st.opts.set (fun b => { b with MainFields := splitWithEmptyCheck (goDropStr arg 14) "," }) id }

/-- Switch case of `parseOptionsImpl` for the `--conditions=` case. -/
def argCaseConditions (ext : Externals) (kind : ParseOptionsKind) (st : LoopState)
    (arg : String) : Except ErrorWithNote LoopState :=
  .ok { st with opts := st.opts.set (fun b => { b with Conditions := splitWithEmptyCheck (goDropStr arg 13) "," }) id }

/-- Switch case of `parseOptionsImpl` for the `--public-path=` case. -/
def argCasePublicPath (ext : Externals) (kind : ParseOptionsKind) (st : LoopState)
    (arg : String) : Except ErrorWithNote LoopState :=
  .ok { st with opts := st.opts.set (fun b => { b with PublicPath := goDropStr arg 14 }) id }

/-- Switch case of `parseOptionsImpl` for the `--global-name=` case. -/
def argCaseGlobalName (ext : Externals) (kind : ParseOptionsKind) (st : LoopState)
    (arg : String) : Except ErrorWithNote LoopState :=
  let value := goDropStr arg 14
  .ok { st with opts := st.opts.set (fun b => { b with GlobalName := value }) (fun t => { t with GlobalName := value }) }

/-- Switch case of `parseOptionsImpl` for the `--metafile` case. -/
def argCaseMetafileBare (ext : Externals) (kind : ParseOptionsKind) (st : LoopState)
    (arg : String) : Except ErrorWithNote LoopState :=
  .ok { st with opts := st.opts.set (fun b => { b with Metafile := true }) id }

/-- Switch case of `parseOptionsImpl` for the `--metafile=` case. -/
def argCaseMetafile (ext : Externals) (kind : ParseOptionsKind) (st : LoopState)
    (arg : String) : Except ErrorWithNote LoopState :=
  let value := goDropStr arg 11
  .ok { st with opts := st.opts.set (fun b => { b with Metafile := true }) id, extras := { st.extras with metafile := some value } }

/-- Switch case of `parseOptionsImpl` for the `--outfile=` case. -/
def argCaseOutfile (ext : Externals) (kind : ParseOptionsKind) (st : LoopState)
    (arg : String) : Except ErrorWithNote LoopState :=
  .ok { st with opts := st.opts.set (fun b => { b with Outfile := goDropStr arg 10 }) id }

/-- Switch case of `parseOptionsImpl` for the `--outdir=` case. -/
def argCaseOutdir (ext : Externals) (kind : ParseOptionsKind) (st : LoopState)
    (arg : String) : Except ErrorWithNote LoopState :=
  .ok { st with opts := st.opts.set (fun b => { b with Outdir := goDropStr arg 9 }) id }

/-- Switch case of `parseOptionsImpl` for the `--outbase=` case. -/
def argCaseOutbase (ext : Externals) (kind : ParseOptionsKind) (st : LoopState)
    (arg : String) : Except ErrorWithNote LoopState :=
  .ok { st with opts := st.opts.set (fun b => { b with Outbase := goDropStr arg 10 }) id }

/-- Switch case of `parseOptionsImpl` for the `--tsconfig=` case. -/
def argCaseTsconfig (ext : Externals) (kind : ParseOptionsKind) (st : LoopState)
    (arg : String) : Except ErrorWithNote LoopState :=
  .ok { st with opts := st.opts.set (fun b => { b with Tsconfig := goDropStr arg 11 }) id }

/-- Switch case of `parseOptionsImpl` for the `--tsconfig-raw=` case. -/
def argCaseTsconfigRaw (ext : Externals) (kind : ParseOptionsKind) (st : LoopState)
    (arg : String) : Except ErrorWithNote LoopState :=
  let value := goDropStr arg 15
  .ok { st with opts := st.opts.set (fun b => { b with TsconfigRaw := value }) (fun t => { t with TsconfigRaw := value }) }

/-- Switch case of `parseOptionsImpl` for the `--entry-names=` case. -/
def argCaseEntryNames (ext : Externals) (kind : ParseOptionsKind) (st : LoopState)
    (arg : String) : Except ErrorWithNote LoopState :=
  .ok { st with opts := st.opts.set (fun b => { b with EntryNames := goDropStr arg 14 }) id }

/-- Switch case of `parseOptionsImpl` for the `--chunk-names=` case. -/
def argCaseChunkNames (ext : Externals) (kind : ParseOptionsKind) (st : LoopState)
    (arg : String) : Except ErrorWithNote LoopState :=
  .ok { st with opts := st.opts.set (fun b => { b with ChunkNames := goDropStr arg 14 }) id }

/-- Switch case of `parseOptionsImpl` for the `--asset-names=` case. -/
def argCaseAssetNames (ext : Externals) (kind : ParseOptionsKind) (st : LoopState)
    (arg : String) : Except ErrorWithNote LoopState :=
  .ok { st with opts := st.opts.set (fun b => { b with AssetNames := goDropStr arg 14 }) id }

/-- Switch case of `parseOptionsImpl` for the `--define:` case. -/
def argCaseDefineColon (ext : Externals) (kind : ParseOptionsKind) (st : LoopState)
    (arg : String) : Except ErrorWithNote LoopState :=
  let value := goDropStr arg 9
  match goIndexByte value '=' with
  | none => .error (MakeErrorWithNote
      ("Missing \"=\" in " ++ goQuote arg)
      "You need to use \"=\" to specify both the original value and the replacement value. For example, \"--define:DEBUG=true\" replaces \"DEBUG\" with \"true\".")
  | some equals =>
    .ok { st with opts := st.opts.set (fun b => { b with Define := mapSet b.Define (goTakeStr value equals) (goDropStr value (equals + 1)) }) (fun t => { t with Define := mapSet t.Define (goTakeStr value equals) (goDropStr value (equals + 1)) }) }

/-- Switch case of `parseOptionsImpl` for the `--log-override:` case. -/
def argCaseLogOverrideColon (ext : Externals) (kind : ParseOptionsKind) (st : LoopState)
    (arg : String) : Except ErrorWithNote LoopState :=
  let value := goDropStr arg 15
  match goIndexByte value '=' with
  | none => .error (MakeErrorWithNote
      ("Missing \"=\" in " ++ goQuote arg)
      "You need to use \"=\" to specify both the message name and the log level. For example, \"--log-override:css-syntax-error=error\" turns all \"css-syntax-error\" log messages into errors.")
  | some equals =>
    match parseLogLevel (goDropStr value (equals + 1)) arg with
    | .error e => .error e
    | .ok logLevel =>
      .ok { st with opts := st.opts.set (fun b => { b with LogOverride := mapSet b.LogOverride (goTakeStr value equals) logLevel }) (fun t => { t with LogOverride := mapSet t.LogOverride (goTakeStr value equals) logLevel }) }

/-- Switch case of `parseOptionsImpl` for the `--abs-paths=` case. -/
def argCaseAbsPaths (ext : Externals) (kind : ParseOptionsKind) (st : LoopState)
    (arg : String) : Except ErrorWithNote LoopState :=
  let values := splitWithEmptyCheck (goDropStr arg 12) ","
  match parseAbsPaths arg values {} with
  | .error e => .error e
  | .ok absPaths =>
    .ok { st with opts := st.opts.set (fun b => { b with AbsPaths := absPaths }) (fun t => { t with AbsPaths := absPaths }) }

/-- Switch case of `parseOptionsImpl` for the `--supported:` case. -/
def argCaseSupportedColon (ext : Externals) (kind : ParseOptionsKind) (st : LoopState)
    (arg : String) : Except ErrorWithNote LoopState :=
  let value := goDropStr arg 12
  match goIndexByte value '=' with
  | none => .error (MakeErrorWithNote
      ("Missing \"=\" in " ++ goQuote arg)
      "You need to use \"=\" to specify both the name of the feature and whether it is supported or not. For example, \"--supported:arrow=false\" marks arrow functions as unsupported.")
  | some equals =>
    match parseBoolFlag arg true with
    | .error e => .error e
    | .ok isSupported =>
      .ok { st with opts := st.opts.set (fun b => { b with Supported := mapSet b.Supported (goTakeStr value equals) isSupported }) (fun t => { t with Supported := mapSet t.Supported (goTakeStr value equals) isSupported }) }

/-- Switch case of `parseOptionsImpl` for the `--pure:` case. -/
def argCasePureColon (ext : Externals) (kind : ParseOptionsKind) (st : LoopState)
    (arg : String) : Except ErrorWithNote LoopState :=
  let value := goDropStr arg 7
  .ok { st with opts := st.opts.set (fun b => { b with Pure := b.Pure ++ [value] }) (fun t => { t with Pure := t.Pure ++ [value] }) }

/-- Switch case of `parseOptionsImpl` for the `--loader:` case. -/
def argCaseLoaderColon (ext : Externals) (kind : ParseOptionsKind) (st : LoopState)
    (arg : String) : Except ErrorWithNote LoopState :=
  let value := goDropStr arg 9
  match goIndexByte value '=' with
  | none => .error (MakeErrorWithNote
      ("Missing \"=\" in " ++ goQuote arg)
      "You need to specify the file extension that the loader applies to. For example, \"--loader:.js=jsx\" applies the \"jsx\" loader to files with the \".js\" extension.")
  | some equals =>
    match ext.ParseLoader (goDropStr value (equals + 1)) with
    | .error e => .error e
    | .ok loader =>
      .ok { st with opts := st.opts.set (fun b => { b with Loader := mapSet b.Loader (goTakeStr value equals) loader }) id }

/-- Switch case of `parseOptionsImpl` for the `--loader=` case. -/
def argCaseLoader (ext : Externals) (kind : ParseOptionsKind) (st : LoopState)
    (arg : String) : Except ErrorWithNote LoopState :=
  let value := goDropStr arg 9
  match ext.ParseLoader value with
  | .error e => .error e
  | .ok loader =>
    if loader == .LoaderFile || loader == .LoaderCopy then
      .error (MakeErrorWithNote
        (goQuote arg ++ " is not supported when transforming stdin")
        ("Using esbuild to transform stdin only generates one output file, so you cannot use the " ++
          goQuote value ++ " loader since that needs to generate two output files."))
    else
      .ok { st with opts := st.opts.set (fun b => { b with Stdin := some { b.Stdin.getD {} with Loader := loader } }) (fun t => { t with Loader := loader }) }

/-- Switch case of `parseOptionsImpl` for the `--target=` case. -/
def argCaseTarget (ext : Externals) (kind : ParseOptionsKind) (st : LoopState)
    (arg : String) : Except ErrorWithNote LoopState :=
  match parseTargets ext.validEngines (splitWithEmptyCheck (goDropStr arg 9) ",") arg with
  | .error e => .error e
  | .ok (target, engines) =>
    .ok { st with opts := st.opts.set (fun b => { b with Target := target, Engines := engines }) (fun t => { t with Target := target, Engines := engines }) }

/-- Switch case of `parseOptionsImpl` for the `--out-extension:` case. -/
def argCaseOutExtensionColon (ext : Externals) (kind : ParseOptionsKind) (st : LoopState)
    (arg : String) : Except ErrorWithNote LoopState :=
  let value := goDropStr arg 16
  match goIndexByte value '=' with
  | none => .error (MakeErrorWithNote
      ("Missing \"=\" in " ++ goQuote arg)
      "You need to use either \"--out-extension:.js=...\" or \"--out-extension:.css=...\" to specify the file type that the output extension applies to .")
  | some equals =>
    .ok { st with opts := st.opts.set (fun b => { b with OutExtension := mapSet b.OutExtension (goTakeStr value equals) (goDropStr value (equals + 1)) }) id }

/-- Switch case of `parseOptionsImpl` for the `--platform=` case. -/
def argCasePlatform (ext : Externals) (kind : ParseOptionsKind) (st : LoopState)
    (arg : String) : Except ErrorWithNote LoopState :=
  let value := goDropStr arg 11
  let pf : Except ErrorWithNote Platform :=
    if goStrEq value "browser" then .ok .PlatformBrowser
    else if goStrEq value "node" then .ok .PlatformNode
    else if goStrEq value "neutral" then .ok .PlatformNeutral
    else .error (MakeErrorWithNote
      ("Invalid value " ++ goQuote value ++ " in " ++ goQuote arg)
      "Valid values are \"browser\", \"node\", or \"neutral\".")
  match pf with
  | .error e => .error e
  | .ok platform => .ok { st with opts := st.opts.set (fun b => { b with Platform := platform }) (fun t => { t with Platform := platform }) }

/-- Switch case of `parseOptionsImpl` for the `--format=` case. -/
def argCaseFormat (ext : Externals) (kind : ParseOptionsKind) (st : LoopState)
    (arg : String) : Except ErrorWithNote LoopState :=
  let value := goDropStr arg 9
  let fm : Except ErrorWithNote Format :=
    if goStrEq value "iife" then .ok .FormatIIFE
    else if goStrEq value "cjs" then .ok .FormatCommonJS
    else if goStrEq value "esm" then .ok .FormatESModule
    else .error (MakeErrorWithNote
      ("Invalid value " ++ goQuote value ++ " in " ++ goQuote arg)
      "Valid values are \"iife\", \"cjs\", or \"esm\".")
  match fm with
  | .error e => .error e
  | .ok format => .ok { st with opts := st.opts.set (fun b => { b with Format := format }) (fun t => { t with Format := format }) }

/-- Switch case of `parseOptionsImpl` for the `--packages=` case. -/
def argCasePackages (ext : Externals) (kind : ParseOptionsKind) (st : LoopState)
    (arg : String) : Except ErrorWithNote LoopState :=
  let value := goDropStr arg 11
  if goStrEq value "bundle" then
    .ok { st with opts := st.opts.set (fun b => { b with Packages := .PackagesBundle }) id }
  else if goStrEq value "external" then
    .ok { st with opts := st.opts.set (fun b => { b with Packages := .PackagesExternal }) id }
  else .error (MakeErrorWithNote
    ("Invalid value " ++ goQuote value ++ " in " ++ goQuote arg)
    "Valid values are \"bundle\" or \"external\".")

/-- Switch case of `parseOptionsImpl` for the `--external:` case. -/
def argCaseExternalColon (ext : Externals) (kind : ParseOptionsKind) (st : LoopState)
    (arg : String) : Except ErrorWithNote LoopState :=
  .ok { st with opts := st.opts.set (fun b => { b with External := b.External ++ [goDropStr arg 11] }) id }

/-- Switch case of `parseOptionsImpl` for the `--inject:` case. -/
def argCaseInjectColon (ext : Externals) (kind : ParseOptionsKind) (st : LoopState)
    (arg : String) : Except ErrorWithNote LoopState :=
  .ok { st with opts := st.opts.set (fun b => { b with Inject := b.Inject ++ [goDropStr arg 9] }) id }

/-- Switch case of `parseOptionsImpl` for the `--alias:` case. -/
def argCaseAliasColon (ext : Externals) (kind : ParseOptionsKind) (st : LoopState)
    (arg : String) : Except ErrorWithNote LoopState :=
  let value := goDropStr arg 8
  match goIndexByte value '=' with
  | none => .error (MakeErrorWithNote
      ("Missing \"=\" in " ++ goQuote arg)
      "You need to use \"=\" to specify both the original package name and the replacement package name. For example, \"--alias:old=new\" replaces package \"old\" with package \"new\".")
  | some equals =>
    .ok { st with opts := st.opts.set (fun b => { b with Alias := mapSet b.Alias (goTakeStr value equals) (goDropStr value (equals + 1)) }) id }

/-- Switch case of `parseOptionsImpl` for the `--jsx=` case. -/
def argCaseJsx (ext : Externals) (kind : ParseOptionsKind) (st : LoopState)
    (arg : String) : Except ErrorWithNote LoopState :=
  let value := goDropStr arg 6
  let md : Except ErrorWithNote JSX :=
    if goStrEq value "transform" then .ok .JSXTransform
    else if goStrEq value "preserve" then .ok .JSXPreserve
    else if goStrEq value "automatic" then .ok .JSXAutomatic
    else .error (MakeErrorWithNote
      ("Invalid value " ++ goQuote value ++ " in " ++ goQuote arg)
      "Valid values are \"transform\", \"automatic\", or \"preserve\".")
  match md with
  | .error e => .error e
  | .ok mode => .ok { st with opts := st.opts.set (fun b => { b with JSX := mode }) (fun t => { t with JSX := mode }) }

/-- Switch case of `parseOptionsImpl` for the `--jsx-factory=` case. -/
def argCaseJsxFactory (ext : Externals) (kind : ParseOptionsKind) (st : LoopState)
    (arg : String) : Except ErrorWithNote LoopState :=
  let value := goDropStr arg 14
  .ok { st with opts := st.opts.set (fun b => { b with JSXFactory := value }) (fun t => { t with JSXFactory := value }) }

/-- Switch case of `parseOptionsImpl` for the `--jsx-fragment=` case. -/
def argCaseJsxFragment (ext : Externals) (kind : ParseOptionsKind) (st : LoopState)
    (arg : String) : Except ErrorWithNote LoopState :=
  let value := goDropStr arg 15
  .ok { st with opts := st.opts.set (fun b => { b with JSXFragment := value }) (fun t => { t with JSXFragment := value }) }

/-- Switch case of `parseOptionsImpl` for the `--jsx-import-source=` case. -/
def argCaseJsxImportSource (ext : Externals) (kind : ParseOptionsKind) (st : LoopState)
    (arg : String) : Except ErrorWithNote LoopState :=
  let value := goDropStr arg 20
  .ok { st with opts := st.opts.set (fun b => { b with JSXImportSource := value }) (fun t => { t with JSXImportSource := value }) }

/-- Switch case of `parseOptionsImpl` for the `--jsx-dev` case. -/
def argCaseJsxDev (ext : Externals) (kind : ParseOptionsKind) (st : LoopState)
    (arg : String) : Except ErrorWithNote LoopState :=
  match parseBoolFlag arg true with
  | .error e => .error e
  | .ok value => .ok { st with opts := st.opts.set (fun b => { b with JSXDev := value }) (fun t => { t with JSXDev := value }) }

/-- Switch case of `parseOptionsImpl` for the `--jsx-side-effects` case. -/
def argCaseJsxSideEffects (ext : Externals) (kind : ParseOptionsKind) (st : LoopState)
    (arg : String) : Except ErrorWithNote LoopState :=
  match parseBoolFlag arg true with
  | .error e => .error e
  | .ok value => .ok { st with opts := st.opts.set (fun b => { b with JSXSideEffects := value }) (fun t => { t with JSXSideEffects := value }) }

/-- Switch case of `parseOptionsImpl` for the `--banner=` case. -/
def argCaseBanner (ext : Externals) (kind : ParseOptionsKind) (st : LoopState)
    (arg : String) : Except ErrorWithNote LoopState :=
  .ok { st with opts := st.opts.set id (fun t => { t with Banner := goDropStr arg 9 }) }

/-- Switch case of `parseOptionsImpl` for the `--footer=` case. -/
def argCaseFooter (ext : Externals) (kind : ParseOptionsKind) (st : LoopState)
    (arg : String) : Except ErrorWithNote LoopState :=
  .ok { st with opts := st.opts.set id (fun t => { t with Footer := goDropStr arg 9 }) }

/-- Switch case of `parseOptionsImpl` for the `--banner:` case. -/
def argCaseBannerColon (ext : Externals) (kind : ParseOptionsKind) (st : LoopState)
    (arg : String) : Except ErrorWithNote LoopState :=
  let value := goDropStr arg 9
  match goIndexByte value '=' with
  | none => .error (MakeErrorWithNote
      ("Missing \"=\" in " ++ goQuote arg)
      "You need to use either \"--banner:js=...\" or \"--banner:css=...\" to specify the language that the banner applies to.")
  | some equals =>
    .ok { st with opts := st.opts.set (fun b => { b with Banner := mapSet b.Banner (goTakeStr value equals) (goDropStr value (equals + 1)) }) id }

/-- Switch case of `parseOptionsImpl` for the `--footer:` case. -/
def argCaseFooterColon (ext : Externals) (kind : ParseOptionsKind) (st : LoopState)
    (arg : String) : Except ErrorWithNote LoopState :=
  let value := goDropStr arg 9
  match goIndexByte value '=' with
  | none => .error (MakeErrorWithNote
      ("Missing \"=\" in " ++ goQuote arg)
      "You need to use either \"--footer:js=...\" or \"--footer:css=...\" to specify the language that the footer applies to.")
  | some equals =>
    .ok { st with opts := st.opts.set (fun b => { b with Footer := mapSet b.Footer (goTakeStr value equals) (goDropStr value (equals + 1)) }) id }

/-- Switch case of `parseOptionsImpl` for the `--log-limit=` case. -/
def argCaseLogLimit (ext : Externals) (kind : ParseOptionsKind) (st : LoopState)
    (arg : String) : Except ErrorWithNote LoopState :=
  let value := goDropStr arg 12
  match goAtoi value with
  | none => .error (MakeErrorWithNote
      ("Invalid value " ++ goQuote value ++ " in " ++ goQuote arg)
      "The log limit must be a non-negative integer.")
  | some limit =>
    if limit < 0 then
      .error (MakeErrorWithNote
        ("Invalid value " ++ goQuote value ++ " in " ++ goQuote arg)
        "The log limit must be a non-negative integer.")
    else .ok { st with opts := st.opts.set (fun b => { b with LogLimit := limit }) (fun t => { t with LogLimit := limit }) }

/-- Switch case of `parseOptionsImpl` for the `--line-limit=` case. -/
def argCaseLineLimit (ext : Externals) (kind : ParseOptionsKind) (st : LoopState)
    (arg : String) : Except ErrorWithNote LoopState :=
  let value := goDropStr arg 13
  match goAtoi value with
  | none => .error (MakeErrorWithNote
      ("Invalid value " ++ goQuote value ++ " in " ++ goQuote arg)
      "The line limit must be a non-negative integer.")
  | some limit =>
    if limit < 0 then
      .error (MakeErrorWithNote
        ("Invalid value " ++ goQuote value ++ " in " ++ goQuote arg)
        "The line limit must be a non-negative integer.")
    else .ok { st with opts := st.opts.set (fun b => { b with LineLimit := limit }) (fun t => { t with LineLimit := limit }) }

/-- Switch case of `parseOptionsImpl` for the `--color` case. -/
def argCaseColor (ext : Externals) (kind : ParseOptionsKind) (st : LoopState)
    (arg : String) : Except ErrorWithNote LoopState :=
  match parseBoolFlag arg true with
  | .error e => .error e
  | .ok value =>
    let color := if value then StderrColor.ColorAlways else StderrColor.ColorNever
    .ok { st with opts := st.opts.set (fun b => { b with Color := color }) (fun t => { t with Color := color }) }

/-- Switch case of `parseOptionsImpl` for the `--log-level=` case. -/
def argCaseLogLevel (ext : Externals) (kind : ParseOptionsKind) (st : LoopState)
    (arg : String) : Except ErrorWithNote LoopState :=
  match parseLogLevel (goDropStr arg 12) arg with
  | .error e => .error e
  | .ok logLevel => .ok { st with opts := st.opts.set (fun b => { b with LogLevel := logLevel }) (fun t => { t with LogLevel := logLevel }) }

/-- Switch case of `parseOptionsImpl` for arguments starting with a single quote before a flag. -/
def argCaseSingleQuoted (ext : Externals) (kind : ParseOptionsKind) (st : LoopState)
    (arg : String) : Except ErrorWithNote LoopState :=
  .error (MakeErrorWithNote
    ("Unexpected single quote character before flag: " ++ arg)
    singleQuoteNote)

/-- Switch case of `parseOptionsImpl` for the entry-point case (arguments not starting with a dash). -/
def argCaseEntryPoint (ext : Externals) (kind : ParseOptionsKind) (st : LoopState)
    (arg : String) : Except ErrorWithNote LoopState :=
  match goIndexByte arg '=' with
  | some equals =>
    .ok { st with opts := st.opts.set (fun b => { b with EntryPointsAdvanced := b.EntryPointsAdvanced ++ [{ OutputPath := goTakeStr arg equals, InputPath := goDropStr arg (equals + 1) }] }) id }
  | none =>
    .ok { st with opts := st.opts.set (fun b => { b with EntryPoints := b.EntryPoints ++ [arg] }) id }

/-- Switch case of `parseOptionsImpl` for the default (invalid flag) case. -/
def argCaseInvalidFlag (ext : Externals) (kind : ParseOptionsKind) (st : LoopState)
    (arg : String) : Except ErrorWithNote LoopState :=
  if st.opts.isBuild then
    .error (MakeErrorWithNote ("Invalid build flag: " ++ goQuote arg) (invalidFlagNote arg))
  else
    .error (MakeErrorWithNote ("Invalid transform flag: " ++ goQuote arg) (invalidFlagNote arg))

/-- One iteration of the `for _, arg := range osArgs` switch of
`parseOptionsImpl`, with the cases in source order; each case body is
its own definition above. -/
def argStep (ext : Externals) (kind : ParseOptionsKind) (st : LoopState)
    (arg : String) : Except ErrorWithNote LoopState :=
  if isBoolFlag arg "--bundle" && st.opts.isBuild then argCaseBundle ext kind st arg
  else if isBoolFlag arg "--preserve-symlinks" && st.opts.isBuild then argCasePreserveSymlinks ext kind st arg
  else if isBoolFlag arg "--splitting" && st.opts.isBuild then argCaseSplitting ext kind st arg
  else if isBoolFlag arg "--allow-overwrite" && st.opts.isBuild then argCaseAllowOverwrite ext kind st arg
  else if isBoolFlag arg "--watch" && st.opts.isBuild then argCaseWatch ext kind st arg
  else if goStartsWith arg "--watch-delay=" && st.opts.isBuild then argCaseWatchDelay ext kind st arg
  else if isBoolFlag arg "--minify" then argCaseMinify ext kind st arg
  else if isBoolFlag arg "--minify-syntax" then argCaseMinifySyntax ext kind st arg
  else if isBoolFlag arg "--minify-whitespace" then argCaseMinifyWhitespace ext kind st arg
  else if isBoolFlag arg "--minify-identifiers" then argCaseMinifyIdentifiers ext kind st arg
  else if isBoolFlag arg "--mangle-quoted" then argCaseMangleQuoted ext kind st arg
  else if goStartsWith arg "--mangle-props=" then argCaseMangleProps ext kind st arg
  else if goStartsWith arg "--reserve-props=" then argCaseReserveProps ext kind st arg
  else if goStartsWith arg "--mangle-cache=" && st.opts.isBuild && kind == .kindInternal then argCaseMangleCache ext kind st arg
  else if goStartsWith arg "--drop:" then argCaseDropColon ext kind st arg
  else if goStartsWith arg "--drop-labels=" then argCaseDropLabels ext kind st arg
  else if goStartsWith arg "--legal-comments=" then argCaseLegalComments ext kind st arg
  else if goStartsWith arg "--charset=" then argCaseCharset ext kind st arg
  else if isBoolFlag arg "--tree-shaking" then argCaseTreeShaking ext kind st arg
  else if isBoolFlag arg "--ignore-annotations" then argCaseIgnoreAnnotations ext kind st arg
  else if isBoolFlag arg "--keep-names" then argCaseKeepNames ext kind st arg
  else if goStrEq arg "--sourcemap" then argCaseSourcemapBare ext kind st arg
  else if goStartsWith arg "--sourcemap=" then argCaseSourcemap ext kind st arg
  else if goStartsWith arg "--source-root=" then argCaseSourceRoot ext kind st arg
  else if isBoolFlag arg "--sources-content" then argCaseSourcesContent ext kind st arg
  else if goStartsWith arg "--sourcefile=" then argCaseSourcefile ext kind st arg
  else if goStartsWith arg "--resolve-extensions=" && st.opts.isBuild then argCaseResolveExtensions ext kind st arg
  else if goStartsWith arg "--main-fields=" && st.opts.isBuild then argCaseMainFields ext kind st arg
  else if goStartsWith arg "--conditions=" && st.opts.isBuild then argCaseConditions ext kind st arg
  else if goStartsWith arg "--public-path=" && st.opts.isBuild then argCasePublicPath ext kind st arg
  else if goStartsWith arg "--global-name=" then argCaseGlobalName ext kind st arg
  else if goStrEq arg "--metafile" && st.opts.isBuild && kind == .kindExternal then argCaseMetafileBare ext kind st arg
  else if goStartsWith arg "--metafile=" && st.opts.isBuild && kind == .kindInternal then argCaseMetafile ext kind st arg
  else if goStartsWith arg "--outfile=" && st.opts.isBuild then argCaseOutfile ext kind st arg
  else if goStartsWith arg "--outdir=" && st.opts.isBuild then argCaseOutdir ext kind st arg
  else if goStartsWith arg "--outbase=" && st.opts.isBuild then argCaseOutbase ext kind st arg
  else if goStartsWith arg "--tsconfig=" && st.opts.isBuild then argCaseTsconfig ext kind st arg
  else if goStartsWith arg "--tsconfig-raw=" then argCaseTsconfigRaw ext kind st arg
  else if goStartsWith arg "--entry-names=" && st.opts.isBuild then argCaseEntryNames ext kind st arg
  else if goStartsWith arg "--chunk-names=" && st.opts.isBuild then argCaseChunkNames ext kind st arg
  else if goStartsWith arg "--asset-names=" && st.opts.isBuild then argCaseAssetNames ext kind st arg
  else if goStartsWith arg "--define:" then argCaseDefineColon ext kind st arg
  else if goStartsWith arg "--log-override:" then argCaseLogOverrideColon ext kind st arg
  else if goStartsWith arg "--abs-paths=" then argCaseAbsPaths ext kind st arg
  else if goStartsWith arg "--supported:" then argCaseSupportedColon ext kind st arg
  else if goStartsWith arg "--pure:" then argCasePureColon ext kind st arg
  else if goStartsWith arg "--loader:" && st.opts.isBuild then argCaseLoaderColon ext kind st arg
  else if goStartsWith arg "--loader=" then argCaseLoader ext kind st arg
  else if goStartsWith arg "--target=" then argCaseTarget ext kind st arg
  else if goStartsWith arg "--out-extension:" && st.opts.isBuild then argCaseOutExtensionColon ext kind st arg
  else if goStartsWith arg "--platform=" then argCasePlatform ext kind st arg
  else if goStartsWith arg "--format=" then argCaseFormat ext kind st arg
  else if goStartsWith arg "--packages=" && st.opts.isBuild then argCasePackages ext kind st arg
  else if goStartsWith arg "--external:" && st.opts.isBuild then argCaseExternalColon ext kind st arg
  else if goStartsWith arg "--inject:" && st.opts.isBuild then argCaseInjectColon ext kind st arg
  else if goStartsWith arg "--alias:" && st.opts.isBuild then argCaseAliasColon ext kind st arg
  else if goStartsWith arg "--jsx=" then argCaseJsx ext kind st arg
  else if goStartsWith arg "--jsx-factory=" then argCaseJsxFactory ext kind st arg
  else if goStartsWith arg "--jsx-fragment=" then argCaseJsxFragment ext kind st arg
  else if goStartsWith arg "--jsx-import-source=" then argCaseJsxImportSource ext kind st arg
  else if isBoolFlag arg "--jsx-dev" then argCaseJsxDev ext kind st arg
  else if isBoolFlag arg "--jsx-side-effects" then argCaseJsxSideEffects ext kind st arg
  else if goStartsWith arg "--banner=" && !st.opts.isBuild then argCaseBanner ext kind st arg
  else if goStartsWith arg "--footer=" && !st.opts.isBuild then argCaseFooter ext kind st arg
  else if goStartsWith arg "--banner:" && st.opts.isBuild then argCaseBannerColon ext kind st arg
  else if goStartsWith arg "--footer:" && st.opts.isBuild then argCaseFooterColon ext kind st arg
  else if goStartsWith arg "--log-limit=" then argCaseLogLimit ext kind st arg
  else if goStartsWith arg "--line-limit=" then argCaseLineLimit ext kind st arg
  else if isBoolFlag arg "--color" then argCaseColor ext kind st arg
  else if goStartsWith arg "--log-level=" then argCaseLogLevel ext kind st arg
  else if goStartsWith arg quoteDashDash then argCaseSingleQuoted ext kind st arg
  else if !goStartsWith arg "-" && st.opts.isBuild then argCaseEntryPoint ext kind st arg
  else argCaseInvalidFlag ext kind st arg

/-- The argument loop of `parseOptionsImpl`. -/
def parseArgsLoop (ext : Externals) (kind : ParseOptionsKind)
    (st : LoopState) : List String → Except ErrorWithNote LoopState
  | [] => .ok st
  | arg :: rest =>
    match argStep ext kind st arg with
    | .error e => .error e
    | .ok st' => parseArgsLoop ext kind st' rest

/-- The final bare-`--sourcemap` adjustment of `parseOptionsImpl`
(source lines 1002-1007): if the last source-map flag was the bare one
and no output path is set, switch the build source map to inline. -/
def parseFixup (st : LoopState) : Opts × ParseOptionsExtras :=
  match st.opts with
  | .build b =>
    if st.hasBareSourceMapFlag && goStrEq b.Outfile "" && goStrEq b.Outdir "" then
      (.build { b with Sourcemap := .SourceMapInline }, st.extras)
    else (.build b, st.extras)
  | .transform t => (.transform t, st.extras)

/-- `parseOptionsImpl`: run the argument loop, then apply the final
bare-`--sourcemap` adjustment.  The Go function mutates the option
struct in place and returns `(extras, err)`; here the final struct is
returned alongside the extras on success. -/
def parseOptionsImpl (ext : Externals) (osArgs : List String) (opts : Opts)
    (kind : ParseOptionsKind) :
    Except ErrorWithNote (Opts × ParseOptionsExtras) :=
  match parseArgsLoop ext kind { opts := opts } osArgs with
  | .error e => .error e
  | .ok st => .ok (parseFixup st)

/-- `isArgForBuild`. -/
def isArgForBuild (arg : String) : Bool :=
  !goStartsWith arg "-" || goStrEq arg "--bundle"

/-- The four-tuple returned by `parseOptionsForRun` (either build
options, or transform options, or an error). -/
structure RunParseResult where
  buildOptions : Option BuildOptions
  transformOptions : Option TransformOptions
  extras : ParseOptionsExtras
  err : Option ErrorWithNote
deriving Repr

/-- `parseOptionsForRun`.  Go scans `osArgs` and enters the build branch
as soon as some argument satisfies `isArgForBuild`, which is equivalent
to the `any` test.  The `transform` fallbacks of the two `match`es are
unreachable because the argument loop never changes the active mode
(`parseArgsLoop_isBuild` below). -/
def cliBuildDefaults : BuildOptions :=
  { newBuildOptions with LogLimit := 6, LogLevel := .LogLevelInfo, Write := true }

def cliTransformDefaults : TransformOptions :=
  { newTransformOptions with LogLimit := 6, LogLevel := .LogLevelInfo }

def parseOptionsForRun (ext : Externals) (osArgs : List String) : RunParseResult :=
  if osArgs.any isArgForBuild then
    match parseOptionsImpl ext osArgs (.build cliBuildDefaults) .kindInternal with
    | .error e => ⟨none, none, {}, some e⟩
    | .ok (.build b, extras) => ⟨some b, none, extras, none⟩
    | .ok (.transform _, _) =>
      ⟨none, none, {}, some (MakeErrorWithNote "internal: mode changed" "")⟩
  else
    match parseOptionsImpl ext osArgs (.transform cliTransformDefaults) .kindInternal with
    | .error e => ⟨none, none, {}, some e⟩
    | .ok (.build _, _) =>
      ⟨none, none, {}, some (MakeErrorWithNote "internal: mode changed" "")⟩
    | .ok (.transform t, _) =>
      if t.Sourcemap != .SourceMapNone && t.Sourcemap != .SourceMapInline then
        let sourceMapMode :=
          match t.Sourcemap with
          | .SourceMapExternal => "external"
          | .SourceMapInlineAndExternal => "both"
          | .SourceMapLinked => "linked"
          | _ => ""
        ⟨none, none, {}, some (MakeErrorWithNote
          ("Use \"--sourcemap\" instead of \"--sourcemap=" ++ sourceMapMode ++ "\" when transforming stdin")
          ("Using esbuild to transform stdin only generates one output file. You cannot use the " ++
            goQuote sourceMapMode ++ " source map mode since that needs to generate two output files."))⟩
      else ⟨none, some t, {}, none⟩

/-! ### The post-build write closures of `runImpl`

`runImpl` builds two closures, `writeMetafile` and `writeMangleCache`,
that run after a build.  Their filesystem effects are modelled as an
explicit action trace; the ambient `realFS` failure, the `MkdirAll`
failure, and the text printed by `printMangleCache` (which lives outside
`src/`) are parameters. -/

inductive FsAction
  | mkdirAll (dir : String)
  | writeFile (path : String) (contents : String)
deriving DecidableEq, Repr

inductive WriteOutcome
  | skipped
  | panicked (msg : String)
  | performed (actions : List FsAction)
deriving DecidableEq, Repr

/-- The filesystem actions attempted by an outcome. -/
def WriteOutcome.fsActions : WriteOutcome → List FsAction
  | .skipped => []
  | .panicked _ => []
  | .performed l => l

def WriteOutcome.isPanic : WriteOutcome → Bool
  | .panicked _ => true
  | _ => false

/-- The `writeMetafile` closure (source lines 1272-1291).  `parseErr` is
the `err` captured from `parseOptionsForRun`; `json` is
`result.Metafile`. -/
def writeMetafile (parseErr : Option ErrorWithNote) (realFSErr : Bool)
    (metafileAbsDir metafileAbsPath : String) (mkdirFails : Bool)
    (json : String) : WriteOutcome :=
  if goStrEq json "" || realFSErr then .skipped
  else
    match parseErr with
    | some e => .panicked e.text
    | none =>
      if mkdirFails then .performed [.mkdirAll metafileAbsDir]
      else .performed [.mkdirAll metafileAbsDir, .writeFile metafileAbsPath json]

/-- The `writeMangleCache` closure (source lines 1318-1338); `printed`
stands for the bytes produced by `printMangleCache`. -/
def writeMangleCache (parseErr : Option ErrorWithNote) (realFSErr : Bool)
    (dir path : String) (mkdirFails : Bool) (printed : String)
    (mangleCache : Option (List (String × String))) : WriteOutcome :=
  if mangleCache.isNone || realFSErr then .skipped
  else
    match parseErr with
    | some e => .panicked e.text
    | none =>
      if mkdirFails then .performed [.mkdirAll dir]
      else .performed [.mkdirAll dir, .writeFile path printed]

/-! ### `parseServeOptionsImpl` -/

structure CORSOptions where
  Origin : List String := []
deriving DecidableEq, Repr

structure ServeOptions where
  Port : Int := 0
  Host : String := ""
  Servedir : String := ""
  Keyfile : String := ""
  Certfile : String := ""
  Fallback : String := ""
  CORS : CORSOptions := {}
deriving DecidableEq, Repr

/-- The state of the flag-filter loop of `parseServeOptionsImpl`. -/
structure ServeFilterState where
  portText : String := ""
  servedir : String := ""
  keyfile : String := ""
  certfile : String := ""
  fallback : String := ""
  corsOrigin : List String := []
  filteredArgs : List String := []
deriving DecidableEq, Repr

def serveFilterStep (s : ServeFilterState) (arg : String) : ServeFilterState :=
  if goStrEq arg "--serve" then s
  else if goStartsWith arg "--serve=" then { s with portText := goDropStr arg 8 }
  else if goStartsWith arg "--servedir=" then { s with servedir := goDropStr arg 11 }
  else if goStartsWith arg "--keyfile=" then { s with keyfile := goDropStr arg 10 }
  else if goStartsWith arg "--certfile=" then { s with certfile := goDropStr arg 11 }
  else if goStartsWith arg "--serve-fallback=" then { s with fallback := goDropStr arg 17 }
  else if goStartsWith arg "--cors-origin=" then { s with corsOrigin := (goDropStr arg 14).splitOn "," }
  else { s with filteredArgs := s.filteredArgs ++ [arg] }

/-- `parseServeOptionsImpl`.  `net.SplitHostPort` is external and passed
in; the exact text of the `strconv.ParseInt` error object is not
modelled (only that an error is returned). -/
def parseServeOptionsImpl
    (splitHostPort : String → Except String (String × String))
    (osArgs : List String) : Except String (ServeOptions × List String) :=
  let s := osArgs.foldl serveFilterStep {}
  let hp : Except String (String × String) :=
    if goContainsRune s.portText ':' then splitHostPort s.portText
    else .ok ("", s.portText)
  match hp with
  | .error e => .error e
  | .ok (host, portText) =>
    let mk : Int → ServeOptions := fun port =>
      { Port := port, Host := host, Servedir := s.servedir,
        Keyfile := s.keyfile, Certfile := s.certfile,
        Fallback := s.fallback, CORS := { Origin := s.corsOrigin } }
    if goStrEq portText "" then .ok (mk 0, s.filteredArgs)
    else
      match goParseIntDec32 portText with
      | none => .error ("invalid port text: " ++ portText)
      | some port =>
        if port < 0 || port > 65535 then
          .error ("Invalid port number: " ++ portText)
        else
          .ok (mk (if port == 0 then -1 else port), s.filteredArgs)

/-! ### Tree-shaking reachability (spec §4.3)

Modelled from the spec: the linker's Part-dependency graph and the
mark-and-sweep tree-shaking pass are not part of the sources included
here (only the CLI front end is), so the mark phase of §4.3 is modelled
directly from the spec's words: parts are seeded from the entry points
and the side-effect rules, and marking propagates through (a) the
symbol-resolution references of a part and (b) its intra-unit structural
dependencies, to a fixed point.  Retained parts are exactly the marked
(reachable) ones; unmarked parts are removed. -/

structure PartGraph where
  /-- parts referenced for symbol resolution (rule (a) of §4.3) -/
  refs : Nat → List Nat
  /-- intra-unit structural dependencies (rule (b) of §4.3) -/
  intraDeps : Nat → List Nat
  /-- the seed set of the mark phase (entry-point parts that are not
  removable-if-unused, exported-and-imported declarations, and
  side-effect parts, per §4.3) -/
  seeds : List Nat

/-- The mark fixed point: a part is marked when it is a seed or is
reached from a marked part along a reference or structural edge. -/
inductive Reachable (g : PartGraph) : Nat → Prop
  | seed {p} : p ∈ g.seeds → Reachable g p
  | ref {p q} : Reachable g p → q ∈ g.refs p → Reachable g q
  | intra {p q} : Reachable g p → q ∈ g.intraDeps p → Reachable g q

/-- A retained part is a marked one. -/
def retainedPart (g : PartGraph) (p : Nat) : Prop := Reachable g p

/-- A part marked for removal is an unmarked one. -/
def removedPart (g : PartGraph) (p : Nat) : Prop := ¬ Reachable g p

/-- `p` references `q` directly or transitively through the
symbol-resolution reference edges. -/
inductive RefPath (g : PartGraph) : Nat → Nat → Prop
  | direct {p q} : q ∈ g.refs p → RefPath g p q
  | step {p q r} : q ∈ g.refs p → RefPath g q r → RefPath g p r

/-! ### Small concrete instances used by witnesses -/

/-- A fixed choice for the external collaborators, used to instantiate
universally quantified theorems at concrete inputs. -/
def extDefault : Externals :=
  ⟨fun _ => .error (MakeErrorWithNote "unknown loader" ""), []⟩

/-- A fixed choice of the external `net.SplitHostPort`. -/
def splitHostPortDefault : String → Except String (String × String) :=
  fun _ => .error "address error"

/-- A build-mode argument that starts with a single quote followed by two
dashes (so it does not start with a dash). -/
def c4Arg : String := quoteDashDash ++ "x"

/-- Whether a non-flag argument contains `=` (and so is an advanced
entry point). -/
def entryHasEq (a : String) : Bool := (goIndexByte a '=').isSome

/-- The advanced entry point built from a non-flag argument containing
`=`. -/
def entryAdv (a : String) : EntryPoint :=
  match goIndexByte a '=' with
  | some i => { OutputPath := goTakeStr a i, InputPath := goDropStr a (i + 1) }
  | none => { OutputPath := "", InputPath := a }

/-- A two-part graph where the seed part `0` references part `1`. -/
def partGraph0 : PartGraph :=
  ⟨fun n => if n == 0 then [1] else [], fun _ => [], [0]⟩

/-! ## Helper lemmas -/


theorem goStrEq_iff_eq {s t : String} : goStrEq s t = true ↔ s = t := by
  unfold goStrEq
  constructor
  · intro h; exact String.ext (beq_iff_eq.mp h)
  · intro h; subst h; exact beq_iff_eq.mpr rfl

theorem goStrEq_false_of_ne {s t : String} (h : s ≠ t) : goStrEq s t = false := by
  cases hq : goStrEq s t with
  | false => rfl
  | true => exact absurd (goStrEq_iff_eq.mp hq) h

theorem parseArgsLoop_cons (ext : Externals) (k : ParseOptionsKind)
    (st : LoopState) (a : String) (rest : List String) :
    parseArgsLoop ext k st (a :: rest) =
      match argStep ext k st a with
      | .error e => .error e
      | .ok st' => parseArgsLoop ext k st' rest := rfl

theorem parseArgsLoop_error {ext : Externals} {k : ParseOptionsKind}
    {st : LoopState} {a : String} {e : ErrorWithNote} (rest : List String)
    (h : argStep ext k st a = .error e) :
    parseArgsLoop ext k st (a :: rest) = .error e := by
  rw [parseArgsLoop_cons, h]

theorem parseArgsLoop_step {ext : Externals} {k : ParseOptionsKind}
    {st st' : LoopState} {a : String} (rest : List String)
    (h : argStep ext k st a = .ok st') :
    parseArgsLoop ext k st (a :: rest) = parseArgsLoop ext k st' rest := by
  rw [parseArgsLoop_cons, h]

theorem parseOptionsImpl_eq_loop (ext : Externals) (args : List String)
    (o : Opts) (k : ParseOptionsKind) :
    parseOptionsImpl ext args o k =
      match parseArgsLoop ext k ⟨o, {}, false⟩ args with
      | .error e => .error e
      | .ok st => .ok (parseFixup st) := rfl

theorem parseOptionsImpl_error_of_loop {ext : Externals} {k : ParseOptionsKind}
    {o : Opts} {args : List String} {e : ErrorWithNote}
    (h : parseArgsLoop ext k ⟨o, {}, false⟩ args = .error e) :
    parseOptionsImpl ext args o k = .error e := by
  rw [parseOptionsImpl_eq_loop, h]

theorem parseOptionsImpl_ok_of_loop {ext : Externals} {k : ParseOptionsKind}
    {o : Opts} {args : List String} {st : LoopState}
    (h : parseArgsLoop ext k ⟨o, {}, false⟩ args = .ok st) :
    parseOptionsImpl ext args o k = .ok (parseFixup st) := by
  rw [parseOptionsImpl_eq_loop, h]

theorem charsIsPref_iff {l₁ l₂ : List Char} : charsIsPref l₁ l₂ = true ↔ l₁ <+: l₂ := by
  induction l₁ generalizing l₂ with
  | nil => simp [charsIsPref]
  | cons a as ih =>
    cases l₂ with
    | nil => simp [charsIsPref]
    | cons b bs =>
      simp [charsIsPref, ih, List.cons_prefix_cons, Bool.and_eq_true, beq_iff_eq]

theorem goStartsWith_iff {s p : String} : goStartsWith s p = true ↔ p.data <+: s.data := by
  unfold goStartsWith; exact charsIsPref_iff

theorem not_dash_pref {a : String} (h1 : goStartsWith a "-" = false)
    {p : String} (hp : goStartsWith p "-" = true) : goStartsWith a p = false := by
  cases hq : goStartsWith a p with
  | false => rfl
  | true =>
    have : goStartsWith a "-" = true :=
      goStartsWith_iff.mpr ((goStartsWith_iff.mp hp).trans (goStartsWith_iff.mp hq))
    rw [this] at h1; exact Bool.noConfusion h1

theorem not_dash_eq {a : String} (h1 : goStartsWith a "-" = false)
    {p : String} (hp : goStartsWith p "-" = true) : goStrEq a p = false := by
  cases hq : goStrEq a p with
  | false => rfl
  | true => rw [goStrEq_iff_eq.mp hq, hp] at h1; exact Bool.noConfusion h1

theorem isBoolFlag_false {a f : String} (h : goStartsWith a f = false) :
    isBoolFlag a f = false := by
  unfold isBoolFlag; rw [h]; rfl

/-- In build mode, a step on an argument that starts with neither `-`
nor `'--` appends an entry point and changes nothing else. -/
theorem argStep_entry (ext : Externals) (k : ParseOptionsKind)
    (b : BuildOptions) (ex : ParseOptionsExtras) (hb : Bool) (a : String)
    (h1 : goStartsWith a "-" = false) (h2 : goStartsWith a quoteDashDash = false) :
    argStep ext k ⟨.build b, ex, hb⟩ a =
      .ok ⟨.build (match goIndexByte a '=' with
        | some equals =>
          { b with EntryPointsAdvanced := b.EntryPointsAdvanced ++
              [{ OutputPath := goTakeStr a equals, InputPath := goDropStr a (equals + 1) }] }
        | none => { b with EntryPoints := b.EntryPoints ++ [a] }), ex, hb⟩ := by
  have T : ∀ p : String, goStartsWith p "-" = true → goStartsWith a p = false :=
    fun p hp => not_dash_pref h1 hp
  simp [argStep, argCaseEntryPoint, h1, h2, Opts.isBuild, Opts.set,
    isBoolFlag_false (T "--bundle" (by decide)),
    isBoolFlag_false (T "--preserve-symlinks" (by decide)),
    isBoolFlag_false (T "--splitting" (by decide)),
    isBoolFlag_false (T "--allow-overwrite" (by decide)),
    isBoolFlag_false (T "--watch" (by decide)),
    isBoolFlag_false (T "--minify" (by decide)),
    isBoolFlag_false (T "--minify-syntax" (by decide)),
    isBoolFlag_false (T "--minify-whitespace" (by decide)),
    isBoolFlag_false (T "--minify-identifiers" (by decide)),
    isBoolFlag_false (T "--mangle-quoted" (by decide)),
    isBoolFlag_false (T "--tree-shaking" (by decide)),
    isBoolFlag_false (T "--ignore-annotations" (by decide)),
    isBoolFlag_false (T "--keep-names" (by decide)),
    isBoolFlag_false (T "--sources-content" (by decide)),
    isBoolFlag_false (T "--jsx-dev" (by decide)),
    isBoolFlag_false (T "--jsx-side-effects" (by decide)),
    isBoolFlag_false (T "--color" (by decide)),
    T "--watch-delay=" (by decide),
    T "--mangle-props=" (by decide),
    T "--reserve-props=" (by decide),
    T "--mangle-cache=" (by decide),
    T "--drop:" (by decide),
    T "--drop-labels=" (by decide),
    T "--legal-comments=" (by decide),
    T "--charset=" (by decide),
    T "--sourcemap=" (by decide),
    T "--source-root=" (by decide),
    T "--sourcefile=" (by decide),
    T "--resolve-extensions=" (by decide),
    T "--main-fields=" (by decide),
    T "--conditions=" (by decide),
    T "--public-path=" (by decide),
    T "--global-name=" (by decide),
    T "--metafile=" (by decide),
    T "--outfile=" (by decide),
    T "--outdir=" (by decide),
    T "--outbase=" (by decide),
    T "--tsconfig=" (by decide),
    T "--tsconfig-raw=" (by decide),
    T "--entry-names=" (by decide),
    T "--chunk-names=" (by decide),
    T "--asset-names=" (by decide),
    T "--define:" (by decide),
    T "--log-override:" (by decide),
    T "--abs-paths=" (by decide),
    T "--supported:" (by decide),
    T "--pure:" (by decide),
    T "--loader:" (by decide),
    T "--loader=" (by decide),
    T "--target=" (by decide),
    T "--out-extension:" (by decide),
    T "--platform=" (by decide),
    T "--format=" (by decide),
    T "--packages=" (by decide),
    T "--external:" (by decide),
    T "--inject:" (by decide),
    T "--alias:" (by decide),
    T "--jsx=" (by decide),
    T "--jsx-factory=" (by decide),
    T "--jsx-fragment=" (by decide),
    T "--jsx-import-source=" (by decide),
    T "--banner=" (by decide),
    T "--footer=" (by decide),
    T "--banner:" (by decide),
    T "--footer:" (by decide),
    T "--log-limit=" (by decide),
    T "--line-limit=" (by decide),
    T "--log-level=" (by decide),
    not_dash_eq h1 (show goStartsWith "--sourcemap" "-" = true by decide),
    not_dash_eq h1 (show goStartsWith "--metafile" "-" = true by decide)]
  cases goIndexByte a '=' <;> rfl

/-- The argument loop on a list of entry-point arguments appends them in
order. -/
theorem parseArgsLoop_entries (ext : Externals) (k : ParseOptionsKind)
    (args : List String) (b : BuildOptions) (ex : ParseOptionsExtras) (hb : Bool)
    (h : ∀ a ∈ args, goStartsWith a "-" = false ∧ goStartsWith a quoteDashDash = false) :
    parseArgsLoop ext k ⟨.build b, ex, hb⟩ args =
      .ok ⟨.build { b with
        EntryPoints := b.EntryPoints ++ args.filter (fun a => !entryHasEq a),
        EntryPointsAdvanced := b.EntryPointsAdvanced ++ (args.filter entryHasEq).map entryAdv },
        ex, hb⟩ := by
  induction args generalizing b with
  | nil => simp [parseArgsLoop]
  | cons a rest ih =>
    have ha := h a (List.mem_cons_self a rest)
    rw [parseArgsLoop_step rest (argStep_entry ext k b ex hb a ha.1 ha.2)]
    cases hEq : goIndexByte a '=' with
    | none =>
      rw [ih _ (fun x hx => h x (List.mem_cons_of_mem a hx))]
      simp [entryHasEq, entryAdv, hEq, List.filter_cons]
    | some i =>
      rw [ih _ (fun x hx => h x (List.mem_cons_of_mem a hx))]
      simp [entryHasEq, entryAdv, hEq, List.filter_cons]

/-- The bare-sourcemap invariant carried through the argument loop:
whenever the last source-map flag seen was the bare `--sourcemap`, a
build-mode source map is `SourceMapLinked`. -/
def SMInv (st : LoopState) : Prop :=
  st.hasBareSourceMapFlag = true →
    ∀ b, st.opts = .build b → b.Sourcemap = .SourceMapLinked

theorem argCaseBundle_inv {ext : Externals} {kind : ParseOptionsKind}
    {st st' : LoopState} {arg : String}
    (h : argCaseBundle ext kind st arg = .ok st') :
    st'.opts.isBuild = st.opts.isBuild ∧ (SMInv st → SMInv st') := by
  simp only [argCaseBundle] at h
  repeat' split at h
  all_goals
    first
    | exact Except.noConfusion h
    | (injection h with h
       subst h
       refine ⟨by cases st.opts <;> rfl, fun hP hb b hbe => ?_⟩
       first
       | exact Bool.noConfusion hb
       | (cases hopts : st.opts with
          | transform t0 =>
            rw [hopts] at hbe
            exact Opts.noConfusion hbe
          | build b0 =>
            rw [hopts] at hbe
            injection hbe with hbe2
            subst hbe2
            first
            | rfl
            | exact hP hb b0 hopts))

theorem argCasePreserveSymlinks_inv {ext : Externals} {kind : ParseOptionsKind}
    {st st' : LoopState} {arg : String}
    (h : argCasePreserveSymlinks ext kind st arg = .ok st') :
    st'.opts.isBuild = st.opts.isBuild ∧ (SMInv st → SMInv st') := by
  simp only [argCasePreserveSymlinks] at h
  repeat' split at h
  all_goals
    first
    | exact Except.noConfusion h
    | (injection h with h
       subst h
       refine ⟨by cases st.opts <;> rfl, fun hP hb b hbe => ?_⟩
       first
       | exact Bool.noConfusion hb
       | (cases hopts : st.opts with
          | transform t0 =>
            rw [hopts] at hbe
            exact Opts.noConfusion hbe
          | build b0 =>
            rw [hopts] at hbe
            injection hbe with hbe2
            subst hbe2
            first
            | rfl
            | exact hP hb b0 hopts))

theorem argCaseSplitting_inv {ext : Externals} {kind : ParseOptionsKind}
    {st st' : LoopState} {arg : String}
    (h : argCaseSplitting ext kind st arg = .ok st') :
    st'.opts.isBuild = st.opts.isBuild ∧ (SMInv st → SMInv st') := by
  simp only [argCaseSplitting] at h
  repeat' split at h
  all_goals
    first
    | exact Except.noConfusion h
    | (injection h with h
       subst h
       refine ⟨by cases st.opts <;> rfl, fun hP hb b hbe => ?_⟩
       first
       | exact Bool.noConfusion hb
       | (cases hopts : st.opts with
          | transform t0 =>
            rw [hopts] at hbe
            exact Opts.noConfusion hbe
          | build b0 =>
            rw [hopts] at hbe
            injection hbe with hbe2
            subst hbe2
            first
            | rfl
            | exact hP hb b0 hopts))

theorem argCaseAllowOverwrite_inv {ext : Externals} {kind : ParseOptionsKind}
    {st st' : LoopState} {arg : String}
    (h : argCaseAllowOverwrite ext kind st arg = .ok st') :
    st'.opts.isBuild = st.opts.isBuild ∧ (SMInv st → SMInv st') := by
  simp only [argCaseAllowOverwrite] at h
  repeat' split at h
  all_goals
    first
    | exact Except.noConfusion h
    | (injection h with h
       subst h
       refine ⟨by cases st.opts <;> rfl, fun hP hb b hbe => ?_⟩
       first
       | exact Bool.noConfusion hb
       | (cases hopts : st.opts with
          | transform t0 =>
            rw [hopts] at hbe
            exact Opts.noConfusion hbe
          | build b0 =>
            rw [hopts] at hbe
            injection hbe with hbe2
            subst hbe2
            first
            | rfl
            | exact hP hb b0 hopts))

theorem argCaseWatch_inv {ext : Externals} {kind : ParseOptionsKind}
    {st st' : LoopState} {arg : String}
    (h : argCaseWatch ext kind st arg = .ok st') :
    st'.opts.isBuild = st.opts.isBuild ∧ (SMInv st → SMInv st') := by
  simp only [argCaseWatch] at h
  repeat' split at h
  all_goals
    first
    | exact Except.noConfusion h
    | (injection h with h
       subst h
       refine ⟨by cases st.opts <;> rfl, fun hP hb b hbe => ?_⟩
       first
       | exact Bool.noConfusion hb
       | (cases hopts : st.opts with
          | transform t0 =>
            rw [hopts] at hbe
            exact Opts.noConfusion hbe
          | build b0 =>
            rw [hopts] at hbe
            injection hbe with hbe2
            subst hbe2
            first
            | rfl
            | exact hP hb b0 hopts))

theorem argCaseWatchDelay_inv {ext : Externals} {kind : ParseOptionsKind}
    {st st' : LoopState} {arg : String}
    (h : argCaseWatchDelay ext kind st arg = .ok st') :
    st'.opts.isBuild = st.opts.isBuild ∧ (SMInv st → SMInv st') := by
  simp only [argCaseWatchDelay] at h
  repeat' split at h
  all_goals
    first
    | exact Except.noConfusion h
    | (injection h with h
       subst h
       refine ⟨by cases st.opts <;> rfl, fun hP hb b hbe => ?_⟩
       first
       | exact Bool.noConfusion hb
       | (cases hopts : st.opts with
          | transform t0 =>
            rw [hopts] at hbe
            exact Opts.noConfusion hbe
          | build b0 =>
            rw [hopts] at hbe
            injection hbe with hbe2
            subst hbe2
            first
            | rfl
            | exact hP hb b0 hopts))

theorem argCaseMinify_inv {ext : Externals} {kind : ParseOptionsKind}
    {st st' : LoopState} {arg : String}
    (h : argCaseMinify ext kind st arg = .ok st') :
    st'.opts.isBuild = st.opts.isBuild ∧ (SMInv st → SMInv st') := by
  simp only [argCaseMinify] at h
  repeat' split at h
  all_goals
    first
    | exact Except.noConfusion h
    | (injection h with h
       subst h
       refine ⟨by cases st.opts <;> rfl, fun hP hb b hbe => ?_⟩
       first
       | exact Bool.noConfusion hb
       | (cases hopts : st.opts with
          | transform t0 =>
            rw [hopts] at hbe
            exact Opts.noConfusion hbe
          | build b0 =>
            rw [hopts] at hbe
            injection hbe with hbe2
            subst hbe2
            first
            | rfl
            | exact hP hb b0 hopts))

theorem argCaseMinifySyntax_inv {ext : Externals} {kind : ParseOptionsKind}
    {st st' : LoopState} {arg : String}
    (h : argCaseMinifySyntax ext kind st arg = .ok st') :
    st'.opts.isBuild = st.opts.isBuild ∧ (SMInv st → SMInv st') := by
  simp only [argCaseMinifySyntax] at h
  repeat' split at h
  all_goals
    first
    | exact Except.noConfusion h
    | (injection h with h
       subst h
       refine ⟨by cases st.opts <;> rfl, fun hP hb b hbe => ?_⟩
       first
       | exact Bool.noConfusion hb
       | (cases hopts : st.opts with
          | transform t0 =>
            rw [hopts] at hbe
            exact Opts.noConfusion hbe
          | build b0 =>
            rw [hopts] at hbe
            injection hbe with hbe2
            subst hbe2
            first
            | rfl
            | exact hP hb b0 hopts))

theorem argCaseMinifyWhitespace_inv {ext : Externals} {kind : ParseOptionsKind}
    {st st' : LoopState} {arg : String}
    (h : argCaseMinifyWhitespace ext kind st arg = .ok st') :
    st'.opts.isBuild = st.opts.isBuild ∧ (SMInv st → SMInv st') := by
  simp only [argCaseMinifyWhitespace] at h
  repeat' split at h
  all_goals
    first
    | exact Except.noConfusion h
    | (injection h with h
       subst h
       refine ⟨by cases st.opts <;> rfl, fun hP hb b hbe => ?_⟩
       first
       | exact Bool.noConfusion hb
       | (cases hopts : st.opts with
          | transform t0 =>
            rw [hopts] at hbe
            exact Opts.noConfusion hbe
          | build b0 =>
            rw [hopts] at hbe
            injection hbe with hbe2
            subst hbe2
            first
            | rfl
            | exact hP hb b0 hopts))

theorem argCaseMinifyIdentifiers_inv {ext : Externals} {kind : ParseOptionsKind}
    {st st' : LoopState} {arg : String}
    (h : argCaseMinifyIdentifiers ext kind st arg = .ok st') :
    st'.opts.isBuild = st.opts.isBuild ∧ (SMInv st → SMInv st') := by
  simp only [argCaseMinifyIdentifiers] at h
  repeat' split at h
  all_goals
    first
    | exact Except.noConfusion h
    | (injection h with h
       subst h
       refine ⟨by cases st.opts <;> rfl, fun hP hb b hbe => ?_⟩
       first
       | exact Bool.noConfusion hb
       | (cases hopts : st.opts with
          | transform t0 =>
            rw [hopts] at hbe
            exact Opts.noConfusion hbe
          | build b0 =>
            rw [hopts] at hbe
            injection hbe with hbe2
            subst hbe2
            first
            | rfl
            | exact hP hb b0 hopts))

theorem argCaseMangleQuoted_inv {ext : Externals} {kind : ParseOptionsKind}
    {st st' : LoopState} {arg : String}
    (h : argCaseMangleQuoted ext kind st arg = .ok st') :
    st'.opts.isBuild = st.opts.isBuild ∧ (SMInv st → SMInv st') := by
  simp only [argCaseMangleQuoted] at h
  repeat' split at h
  all_goals
    first
    | exact Except.noConfusion h
    | (injection h with h
       subst h
       refine ⟨by cases st.opts <;> rfl, fun hP hb b hbe => ?_⟩
       first
       | exact Bool.noConfusion hb
       | (cases hopts : st.opts with
          | transform t0 =>
            rw [hopts] at hbe
            exact Opts.noConfusion hbe
          | build b0 =>
            rw [hopts] at hbe
            injection hbe with hbe2
            subst hbe2
            first
            | rfl
            | exact hP hb b0 hopts))

theorem argCaseMangleProps_inv {ext : Externals} {kind : ParseOptionsKind}
    {st st' : LoopState} {arg : String}
    (h : argCaseMangleProps ext kind st arg = .ok st') :
    st'.opts.isBuild = st.opts.isBuild ∧ (SMInv st → SMInv st') := by
  simp only [argCaseMangleProps] at h
  repeat' split at h
  all_goals
    first
    | exact Except.noConfusion h
    | (injection h with h
       subst h
       refine ⟨by cases st.opts <;> rfl, fun hP hb b hbe => ?_⟩
       first
       | exact Bool.noConfusion hb
       | (cases hopts : st.opts with
          | transform t0 =>
            rw [hopts] at hbe
            exact Opts.noConfusion hbe
          | build b0 =>
            rw [hopts] at hbe
            injection hbe with hbe2
            subst hbe2
            first
            | rfl
            | exact hP hb b0 hopts))

theorem argCaseReserveProps_inv {ext : Externals} {kind : ParseOptionsKind}
    {st st' : LoopState} {arg : String}
    (h : argCaseReserveProps ext kind st arg = .ok st') :
    st'.opts.isBuild = st.opts.isBuild ∧ (SMInv st → SMInv st') := by
  simp only [argCaseReserveProps] at h
  repeat' split at h
  all_goals
    first
    | exact Except.noConfusion h
    | (injection h with h
       subst h
       refine ⟨by cases st.opts <;> rfl, fun hP hb b hbe => ?_⟩
       first
       | exact Bool.noConfusion hb
       | (cases hopts : st.opts with
          | transform t0 =>
            rw [hopts] at hbe
            exact Opts.noConfusion hbe
          | build b0 =>
            rw [hopts] at hbe
            injection hbe with hbe2
            subst hbe2
            first
            | rfl
            | exact hP hb b0 hopts))

theorem argCaseMangleCache_inv {ext : Externals} {kind : ParseOptionsKind}
    {st st' : LoopState} {arg : String}
    (h : argCaseMangleCache ext kind st arg = .ok st') :
    st'.opts.isBuild = st.opts.isBuild ∧ (SMInv st → SMInv st') := by
  simp only [argCaseMangleCache] at h
  repeat' split at h
  all_goals
    first
    | exact Except.noConfusion h
    | (injection h with h
       subst h
       refine ⟨by cases st.opts <;> rfl, fun hP hb b hbe => ?_⟩
       first
       | exact Bool.noConfusion hb
       | (cases hopts : st.opts with
          | transform t0 =>
            rw [hopts] at hbe
            exact Opts.noConfusion hbe
          | build b0 =>
            rw [hopts] at hbe
            injection hbe with hbe2
            subst hbe2
            first
            | rfl
            | exact hP hb b0 hopts))

theorem argCaseDropColon_inv {ext : Externals} {kind : ParseOptionsKind}
    {st st' : LoopState} {arg : String}
    (h : argCaseDropColon ext kind st arg = .ok st') :
    st'.opts.isBuild = st.opts.isBuild ∧ (SMInv st → SMInv st') := by
  simp only [argCaseDropColon] at h
  repeat' split at h
  all_goals
    first
    | exact Except.noConfusion h
    | (injection h with h
       subst h
       refine ⟨by cases st.opts <;> rfl, fun hP hb b hbe => ?_⟩
       first
       | exact Bool.noConfusion hb
       | (cases hopts : st.opts with
          | transform t0 =>
            rw [hopts] at hbe
            exact Opts.noConfusion hbe
          | build b0 =>
            rw [hopts] at hbe
            injection hbe with hbe2
            subst hbe2
            first
            | rfl
            | exact hP hb b0 hopts))

theorem argCaseDropLabels_inv {ext : Externals} {kind : ParseOptionsKind}
    {st st' : LoopState} {arg : String}
    (h : argCaseDropLabels ext kind st arg = .ok st') :
    st'.opts.isBuild = st.opts.isBuild ∧ (SMInv st → SMInv st') := by
  simp only [argCaseDropLabels] at h
  repeat' split at h
  all_goals
    first
    | exact Except.noConfusion h
    | (injection h with h
       subst h
       refine ⟨by cases st.opts <;> rfl, fun hP hb b hbe => ?_⟩
       first
       | exact Bool.noConfusion hb
       | (cases hopts : st.opts with
          | transform t0 =>
            rw [hopts] at hbe
            exact Opts.noConfusion hbe
          | build b0 =>
            rw [hopts] at hbe
            injection hbe with hbe2
            subst hbe2
            first
            | rfl
            | exact hP hb b0 hopts))

theorem argCaseLegalComments_inv {ext : Externals} {kind : ParseOptionsKind}
    {st st' : LoopState} {arg : String}
    (h : argCaseLegalComments ext kind st arg = .ok st') :
    st'.opts.isBuild = st.opts.isBuild ∧ (SMInv st → SMInv st') := by
  simp only [argCaseLegalComments] at h
  repeat' split at h
  all_goals
    first
    | exact Except.noConfusion h
    | (injection h with h
       subst h
       refine ⟨by cases st.opts <;> rfl, fun hP hb b hbe => ?_⟩
       first
       | exact Bool.noConfusion hb
       | (cases hopts : st.opts with
          | transform t0 =>
            rw [hopts] at hbe
            exact Opts.noConfusion hbe
          | build b0 =>
            rw [hopts] at hbe
            injection hbe with hbe2
            subst hbe2
            first
            | rfl
            | exact hP hb b0 hopts))

theorem argCaseCharset_inv {ext : Externals} {kind : ParseOptionsKind}
    {st st' : LoopState} {arg : String}
    (h : argCaseCharset ext kind st arg = .ok st') :
    st'.opts.isBuild = st.opts.isBuild ∧ (SMInv st → SMInv st') := by
  simp only [argCaseCharset] at h
  repeat' split at h
  all_goals
    first
    | exact Except.noConfusion h
    | (injection h with h
       subst h
       refine ⟨by cases st.opts <;> rfl, fun hP hb b hbe => ?_⟩
       first
       | exact Bool.noConfusion hb
       | (cases hopts : st.opts with
          | transform t0 =>
            rw [hopts] at hbe
            exact Opts.noConfusion hbe
          | build b0 =>
            rw [hopts] at hbe
            injection hbe with hbe2
            subst hbe2
            first
            | rfl
            | exact hP hb b0 hopts))

theorem argCaseTreeShaking_inv {ext : Externals} {kind : ParseOptionsKind}
    {st st' : LoopState} {arg : String}
    (h : argCaseTreeShaking ext kind st arg = .ok st') :
    st'.opts.isBuild = st.opts.isBuild ∧ (SMInv st → SMInv st') := by
  simp only [argCaseTreeShaking] at h
  repeat' split at h
  all_goals
    first
    | exact Except.noConfusion h
    | (injection h with h
       subst h
       refine ⟨by cases st.opts <;> rfl, fun hP hb b hbe => ?_⟩
       first
       | exact Bool.noConfusion hb
       | (cases hopts : st.opts with
          | transform t0 =>
            rw [hopts] at hbe
            exact Opts.noConfusion hbe
          | build b0 =>
            rw [hopts] at hbe
            injection hbe with hbe2
            subst hbe2
            first
            | rfl
            | exact hP hb b0 hopts))

theorem argCaseIgnoreAnnotations_inv {ext : Externals} {kind : ParseOptionsKind}
    {st st' : LoopState} {arg : String}
    (h : argCaseIgnoreAnnotations ext kind st arg = .ok st') :
    st'.opts.isBuild = st.opts.isBuild ∧ (SMInv st → SMInv st') := by
  simp only [argCaseIgnoreAnnotations] at h
  repeat' split at h
  all_goals
    first
    | exact Except.noConfusion h
    | (injection h with h
       subst h
       refine ⟨by cases st.opts <;> rfl, fun hP hb b hbe => ?_⟩
       first
       | exact Bool.noConfusion hb
       | (cases hopts : st.opts with
          | transform t0 =>
            rw [hopts] at hbe
            exact Opts.noConfusion hbe
          | build b0 =>
            rw [hopts] at hbe
            injection hbe with hbe2
            subst hbe2
            first
            | rfl
            | exact hP hb b0 hopts))

theorem argCaseKeepNames_inv {ext : Externals} {kind : ParseOptionsKind}
    {st st' : LoopState} {arg : String}
    (h : argCaseKeepNames ext kind st arg = .ok st') :
    st'.opts.isBuild = st.opts.isBuild ∧ (SMInv st → SMInv st') := by
  simp only [argCaseKeepNames] at h
  repeat' split at h
  all_goals
    first
    | exact Except.noConfusion h
    | (injection h with h
       subst h
       refine ⟨by cases st.opts <;> rfl, fun hP hb b hbe => ?_⟩
       first
       | exact Bool.noConfusion hb
       | (cases hopts : st.opts with
          | transform t0 =>
            rw [hopts] at hbe
            exact Opts.noConfusion hbe
          | build b0 =>
            rw [hopts] at hbe
            injection hbe with hbe2
            subst hbe2
            first
            | rfl
            | exact hP hb b0 hopts))

theorem argCaseSourcemapBare_inv {ext : Externals} {kind : ParseOptionsKind}
    {st st' : LoopState} {arg : String}
    (h : argCaseSourcemapBare ext kind st arg = .ok st') :
    st'.opts.isBuild = st.opts.isBuild ∧ (SMInv st → SMInv st') := by
  simp only [argCaseSourcemapBare] at h
  repeat' split at h
  all_goals
    first
    | exact Except.noConfusion h
    | (injection h with h
       subst h
       refine ⟨by cases st.opts <;> rfl, fun hP hb b hbe => ?_⟩
       first
       | exact Bool.noConfusion hb
       | (cases hopts : st.opts with
          | transform t0 =>
            rw [hopts] at hbe
            exact Opts.noConfusion hbe
          | build b0 =>
            rw [hopts] at hbe
            injection hbe with hbe2
            subst hbe2
            first
            | rfl
            | exact hP hb b0 hopts))

theorem argCaseSourcemap_inv {ext : Externals} {kind : ParseOptionsKind}
    {st st' : LoopState} {arg : String}
    (h : argCaseSourcemap ext kind st arg = .ok st') :
    st'.opts.isBuild = st.opts.isBuild ∧ (SMInv st → SMInv st') := by
  simp only [argCaseSourcemap] at h
  repeat' split at h
  all_goals
    first
    | exact Except.noConfusion h
    | (injection h with h
       subst h
       refine ⟨by cases st.opts <;> rfl, fun hP hb b hbe => ?_⟩
       first
       | exact Bool.noConfusion hb
       | (cases hopts : st.opts with
          | transform t0 =>
            rw [hopts] at hbe
            exact Opts.noConfusion hbe
          | build b0 =>
            rw [hopts] at hbe
            injection hbe with hbe2
            subst hbe2
            first
            | rfl
            | exact hP hb b0 hopts))

theorem argCaseSourceRoot_inv {ext : Externals} {kind : ParseOptionsKind}
    {st st' : LoopState} {arg : String}
    (h : argCaseSourceRoot ext kind st arg = .ok st') :
    st'.opts.isBuild = st.opts.isBuild ∧ (SMInv st → SMInv st') := by
  simp only [argCaseSourceRoot] at h
  repeat' split at h
  all_goals
    first
    | exact Except.noConfusion h
    | (injection h with h
       subst h
       refine ⟨by cases st.opts <;> rfl, fun hP hb b hbe => ?_⟩
       first
       | exact Bool.noConfusion hb
       | (cases hopts : st.opts with
          | transform t0 =>
            rw [hopts] at hbe
            exact Opts.noConfusion hbe
          | build b0 =>
            rw [hopts] at hbe
            injection hbe with hbe2
            subst hbe2
            first
            | rfl
            | exact hP hb b0 hopts))

theorem argCaseSourcesContent_inv {ext : Externals} {kind : ParseOptionsKind}
    {st st' : LoopState} {arg : String}
    (h : argCaseSourcesContent ext kind st arg = .ok st') :
    st'.opts.isBuild = st.opts.isBuild ∧ (SMInv st → SMInv st') := by
  simp only [argCaseSourcesContent] at h
  repeat' split at h
  all_goals
    first
    | exact Except.noConfusion h
    | (injection h with h
       subst h
       refine ⟨by cases st.opts <;> rfl, fun hP hb b hbe => ?_⟩
       first
       | exact Bool.noConfusion hb
       | (cases hopts : st.opts with
          | transform t0 =>
            rw [hopts] at hbe
            exact Opts.noConfusion hbe
          | build b0 =>
            rw [hopts] at hbe
            injection hbe with hbe2
            subst hbe2
            first
            | rfl
            | exact hP hb b0 hopts))

theorem argCaseSourcefile_inv {ext : Externals} {kind : ParseOptionsKind}
    {st st' : LoopState} {arg : String}
    (h : argCaseSourcefile ext kind st arg = .ok st') :
    st'.opts.isBuild = st.opts.isBuild ∧ (SMInv st → SMInv st') := by
  simp only [argCaseSourcefile] at h
  repeat' split at h
  all_goals
    first
    | exact Except.noConfusion h
    | (injection h with h
       subst h
       refine ⟨by cases st.opts <;> rfl, fun hP hb b hbe => ?_⟩
       first
       | exact Bool.noConfusion hb
       | (cases hopts : st.opts with
          | transform t0 =>
            rw [hopts] at hbe
            exact Opts.noConfusion hbe
          | build b0 =>
            rw [hopts] at hbe
            injection hbe with hbe2
            subst hbe2
            first
            | rfl
            | exact hP hb b0 hopts))

theorem argCaseResolveExtensions_inv {ext : Externals} {kind : ParseOptionsKind}
    {st st' : LoopState} {arg : String}
    (h : argCaseResolveExtensions ext kind st arg = .ok st') :
    st'.opts.isBuild = st.opts.isBuild ∧ (SMInv st → SMInv st') := by
  simp only [argCaseResolveExtensions] at h
  repeat' split at h
  all_goals
    first
    | exact Except.noConfusion h
    | (injection h with h
       subst h
       refine ⟨by cases st.opts <;> rfl, fun hP hb b hbe => ?_⟩
       first
       | exact Bool.noConfusion hb
       | (cases hopts : st.opts with
          | transform t0 =>
            rw [hopts] at hbe
            exact Opts.noConfusion hbe
          | build b0 =>
            rw [hopts] at hbe
            injection hbe with hbe2
            subst hbe2
            first
            | rfl
            | exact hP hb b0 hopts))

theorem argCaseMainFields_inv {ext : Externals} {kind : ParseOptionsKind}
    {st st' : LoopState} {arg : String}
    (h : argCaseMainFields ext kind st arg = .ok st') :
    st'.opts.isBuild = st.opts.isBuild ∧ (SMInv st → SMInv st') := by
  simp only [argCaseMainFields] at h
  repeat' split at h
  all_goals
    first
    | exact Except.noConfusion h
    | (injection h with h
       subst h
       refine ⟨by cases st.opts <;> rfl, fun hP hb b hbe => ?_⟩
       first
       | exact Bool.noConfusion hb
       | (cases hopts : st.opts with
          | transform t0 =>
            rw [hopts] at hbe
            exact Opts.noConfusion hbe
          | build b0 =>
            rw [hopts] at hbe
            injection hbe with hbe2
            subst hbe2
            first
            | rfl
            | exact hP hb b0 hopts))

theorem argCaseConditions_inv {ext : Externals} {kind : ParseOptionsKind}
    {st st' : LoopState} {arg : String}
    (h : argCaseConditions ext kind st arg = .ok st') :
    st'.opts.isBuild = st.opts.isBuild ∧ (SMInv st → SMInv st') := by
  simp only [argCaseConditions] at h
  repeat' split at h
  all_goals
    first
    | exact Except.noConfusion h
    | (injection h with h
       subst h
       refine ⟨by cases st.opts <;> rfl, fun hP hb b hbe => ?_⟩
       first
       | exact Bool.noConfusion hb
       | (cases hopts : st.opts with
          | transform t0 =>
            rw [hopts] at hbe
            exact Opts.noConfusion hbe
          | build b0 =>
            rw [hopts] at hbe
            injection hbe with hbe2
            subst hbe2
            first
            | rfl
            | exact hP hb b0 hopts))

theorem argCasePublicPath_inv {ext : Externals} {kind : ParseOptionsKind}
    {st st' : LoopState} {arg : String}
    (h : argCasePublicPath ext kind st arg = .ok st') :
    st'.opts.isBuild = st.opts.isBuild ∧ (SMInv st → SMInv st') := by
  simp only [argCasePublicPath] at h
  repeat' split at h
  all_goals
    first
    | exact Except.noConfusion h
    | (injection h with h
       subst h
       refine ⟨by cases st.opts <;> rfl, fun hP hb b hbe => ?_⟩
       first
       | exact Bool.noConfusion hb
       | (cases hopts : st.opts with
          | transform t0 =>
            rw [hopts] at hbe
            exact Opts.noConfusion hbe
          | build b0 =>
            rw [hopts] at hbe
            injection hbe with hbe2
            subst hbe2
            first
            | rfl
            | exact hP hb b0 hopts))

theorem argCaseGlobalName_inv {ext : Externals} {kind : ParseOptionsKind}
    {st st' : LoopState} {arg : String}
    (h : argCaseGlobalName ext kind st arg = .ok st') :
    st'.opts.isBuild = st.opts.isBuild ∧ (SMInv st → SMInv st') := by
  simp only [argCaseGlobalName] at h
  repeat' split at h
  all_goals
    first
    | exact Except.noConfusion h
    | (injection h with h
       subst h
       refine ⟨by cases st.opts <;> rfl, fun hP hb b hbe => ?_⟩
       first
       | exact Bool.noConfusion hb
       | (cases hopts : st.opts with
          | transform t0 =>
            rw [hopts] at hbe
            exact Opts.noConfusion hbe
          | build b0 =>
            rw [hopts] at hbe
            injection hbe with hbe2
            subst hbe2
            first
            | rfl
            | exact hP hb b0 hopts))

theorem argCaseMetafileBare_inv {ext : Externals} {kind : ParseOptionsKind}
    {st st' : LoopState} {arg : String}
    (h : argCaseMetafileBare ext kind st arg = .ok st') :
    st'.opts.isBuild = st.opts.isBuild ∧ (SMInv st → SMInv st') := by
  simp only [argCaseMetafileBare] at h
  repeat' split at h
  all_goals
    first
    | exact Except.noConfusion h
    | (injection h with h
       subst h
       refine ⟨by cases st.opts <;> rfl, fun hP hb b hbe => ?_⟩
       first
       | exact Bool.noConfusion hb
       | (cases hopts : st.opts with
          | transform t0 =>
            rw [hopts] at hbe
            exact Opts.noConfusion hbe
          | build b0 =>
            rw [hopts] at hbe
            injection hbe with hbe2
            subst hbe2
            first
            | rfl
            | exact hP hb b0 hopts))

theorem argCaseMetafile_inv {ext : Externals} {kind : ParseOptionsKind}
    {st st' : LoopState} {arg : String}
    (h : argCaseMetafile ext kind st arg = .ok st') :
    st'.opts.isBuild = st.opts.isBuild ∧ (SMInv st → SMInv st') := by
  simp only [argCaseMetafile] at h
  repeat' split at h
  all_goals
    first
    | exact Except.noConfusion h
    | (injection h with h
       subst h
       refine ⟨by cases st.opts <;> rfl, fun hP hb b hbe => ?_⟩
       first
       | exact Bool.noConfusion hb
       | (cases hopts : st.opts with
          | transform t0 =>
            rw [hopts] at hbe
            exact Opts.noConfusion hbe
          | build b0 =>
            rw [hopts] at hbe
            injection hbe with hbe2
            subst hbe2
            first
            | rfl
            | exact hP hb b0 hopts))

theorem argCaseOutfile_inv {ext : Externals} {kind : ParseOptionsKind}
    {st st' : LoopState} {arg : String}
    (h : argCaseOutfile ext kind st arg = .ok st') :
    st'.opts.isBuild = st.opts.isBuild ∧ (SMInv st → SMInv st') := by
  simp only [argCaseOutfile] at h
  repeat' split at h
  all_goals
    first
    | exact Except.noConfusion h
    | (injection h with h
       subst h
       refine ⟨by cases st.opts <;> rfl, fun hP hb b hbe => ?_⟩
       first
       | exact Bool.noConfusion hb
       | (cases hopts : st.opts with
          | transform t0 =>
            rw [hopts] at hbe
            exact Opts.noConfusion hbe
          | build b0 =>
            rw [hopts] at hbe
            injection hbe with hbe2
            subst hbe2
            first
            | rfl
            | exact hP hb b0 hopts))

theorem argCaseOutdir_inv {ext : Externals} {kind : ParseOptionsKind}
    {st st' : LoopState} {arg : String}
    (h : argCaseOutdir ext kind st arg = .ok st') :
    st'.opts.isBuild = st.opts.isBuild ∧ (SMInv st → SMInv st') := by
  simp only [argCaseOutdir] at h
  repeat' split at h
  all_goals
    first
    | exact Except.noConfusion h
    | (injection h with h
       subst h
       refine ⟨by cases st.opts <;> rfl, fun hP hb b hbe => ?_⟩
       first
       | exact Bool.noConfusion hb
       | (cases hopts : st.opts with
          | transform t0 =>
            rw [hopts] at hbe
            exact Opts.noConfusion hbe
          | build b0 =>
            rw [hopts] at hbe
            injection hbe with hbe2
            subst hbe2
            first
            | rfl
            | exact hP hb b0 hopts))

theorem argCaseOutbase_inv {ext : Externals} {kind : ParseOptionsKind}
    {st st' : LoopState} {arg : String}
    (h : argCaseOutbase ext kind st arg = .ok st') :
    st'.opts.isBuild = st.opts.isBuild ∧ (SMInv st → SMInv st') := by
  simp only [argCaseOutbase] at h
  repeat' split at h
  all_goals
    first
    | exact Except.noConfusion h
    | (injection h with h
       subst h
       refine ⟨by cases st.opts <;> rfl, fun hP hb b hbe => ?_⟩
       first
       | exact Bool.noConfusion hb
       | (cases hopts : st.opts with
          | transform t0 =>
            rw [hopts] at hbe
            exact Opts.noConfusion hbe
          | build b0 =>
            rw [hopts] at hbe
            injection hbe with hbe2
            subst hbe2
            first
            | rfl
            | exact hP hb b0 hopts))

theorem argCaseTsconfig_inv {ext : Externals} {kind : ParseOptionsKind}
    {st st' : LoopState} {arg : String}
    (h : argCaseTsconfig ext kind st arg = .ok st') :
    st'.opts.isBuild = st.opts.isBuild ∧ (SMInv st → SMInv st') := by
  simp only [argCaseTsconfig] at h
  repeat' split at h
  all_goals
    first
    | exact Except.noConfusion h
    | (injection h with h
       subst h
       refine ⟨by cases st.opts <;> rfl, fun hP hb b hbe => ?_⟩
       first
       | exact Bool.noConfusion hb
       | (cases hopts : st.opts with
          | transform t0 =>
            rw [hopts] at hbe
            exact Opts.noConfusion hbe
          | build b0 =>
            rw [hopts] at hbe
            injection hbe with hbe2
            subst hbe2
            first
            | rfl
            | exact hP hb b0 hopts))

theorem argCaseTsconfigRaw_inv {ext : Externals} {kind : ParseOptionsKind}
    {st st' : LoopState} {arg : String}
    (h : argCaseTsconfigRaw ext kind st arg = .ok st') :
    st'.opts.isBuild = st.opts.isBuild ∧ (SMInv st → SMInv st') := by
  simp only [argCaseTsconfigRaw] at h
  repeat' split at h
  all_goals
    first
    | exact Except.noConfusion h
    | (injection h with h
       subst h
       refine ⟨by cases st.opts <;> rfl, fun hP hb b hbe => ?_⟩
       first
       | exact Bool.noConfusion hb
       | (cases hopts : st.opts with
          | transform t0 =>
            rw [hopts] at hbe
            exact Opts.noConfusion hbe
          | build b0 =>
            rw [hopts] at hbe
            injection hbe with hbe2
            subst hbe2
            first
            | rfl
            | exact hP hb b0 hopts))

theorem argCaseEntryNames_inv {ext : Externals} {kind : ParseOptionsKind}
    {st st' : LoopState} {arg : String}
    (h : argCaseEntryNames ext kind st arg = .ok st') :
    st'.opts.isBuild = st.opts.isBuild ∧ (SMInv st → SMInv st') := by
  simp only [argCaseEntryNames] at h
  repeat' split at h
  all_goals
    first
    | exact Except.noConfusion h
    | (injection h with h
       subst h
       refine ⟨by cases st.opts <;> rfl, fun hP hb b hbe => ?_⟩
       first
       | exact Bool.noConfusion hb
       | (cases hopts : st.opts with
          | transform t0 =>
            rw [hopts] at hbe
            exact Opts.noConfusion hbe
          | build b0 =>
            rw [hopts] at hbe
            injection hbe with hbe2
            subst hbe2
            first
            | rfl
            | exact hP hb b0 hopts))

theorem argCaseChunkNames_inv {ext : Externals} {kind : ParseOptionsKind}
    {st st' : LoopState} {arg : String}
    (h : argCaseChunkNames ext kind st arg = .ok st') :
    st'.opts.isBuild = st.opts.isBuild ∧ (SMInv st → SMInv st') := by
  simp only [argCaseChunkNames] at h
  repeat' split at h
  all_goals
    first
    | exact Except.noConfusion h
    | (injection h with h
       subst h
       refine ⟨by cases st.opts <;> rfl, fun hP hb b hbe => ?_⟩
       first
       | exact Bool.noConfusion hb
       | (cases hopts : st.opts with
          | transform t0 =>
            rw [hopts] at hbe
            exact Opts.noConfusion hbe
          | build b0 =>
            rw [hopts] at hbe
            injection hbe with hbe2
            subst hbe2
            first
            | rfl
            | exact hP hb b0 hopts))

theorem argCaseAssetNames_inv {ext : Externals} {kind : ParseOptionsKind}
    {st st' : LoopState} {arg : String}
    (h : argCaseAssetNames ext kind st arg = .ok st') :
    st'.opts.isBuild = st.opts.isBuild ∧ (SMInv st → SMInv st') := by
  simp only [argCaseAssetNames] at h
  repeat' split at h
  all_goals
    first
    | exact Except.noConfusion h
    | (injection h with h
       subst h
       refine ⟨by cases st.opts <;> rfl, fun hP hb b hbe => ?_⟩
       first
       | exact Bool.noConfusion hb
       | (cases hopts : st.opts with
          | transform t0 =>
            rw [hopts] at hbe
            exact Opts.noConfusion hbe
          | build b0 =>
            rw [hopts] at hbe
            injection hbe with hbe2
            subst hbe2
            first
            | rfl
            | exact hP hb b0 hopts))

theorem argCaseDefineColon_inv {ext : Externals} {kind : ParseOptionsKind}
    {st st' : LoopState} {arg : String}
    (h : argCaseDefineColon ext kind st arg = .ok st') :
    st'.opts.isBuild = st.opts.isBuild ∧ (SMInv st → SMInv st') := by
  simp only [argCaseDefineColon] at h
  repeat' split at h
  all_goals
    first
    | exact Except.noConfusion h
    | (injection h with h
       subst h
       refine ⟨by cases st.opts <;> rfl, fun hP hb b hbe => ?_⟩
       first
       | exact Bool.noConfusion hb
       | (cases hopts : st.opts with
          | transform t0 =>
            rw [hopts] at hbe
            exact Opts.noConfusion hbe
          | build b0 =>
            rw [hopts] at hbe
            injection hbe with hbe2
            subst hbe2
            first
            | rfl
            | exact hP hb b0 hopts))

theorem argCaseLogOverrideColon_inv {ext : Externals} {kind : ParseOptionsKind}
    {st st' : LoopState} {arg : String}
    (h : argCaseLogOverrideColon ext kind st arg = .ok st') :
    st'.opts.isBuild = st.opts.isBuild ∧ (SMInv st → SMInv st') := by
  simp only [argCaseLogOverrideColon] at h
  repeat' split at h
  all_goals
    first
    | exact Except.noConfusion h
    | (injection h with h
       subst h
       refine ⟨by cases st.opts <;> rfl, fun hP hb b hbe => ?_⟩
       first
       | exact Bool.noConfusion hb
       | (cases hopts : st.opts with
          | transform t0 =>
            rw [hopts] at hbe
            exact Opts.noConfusion hbe
          | build b0 =>
            rw [hopts] at hbe
            injection hbe with hbe2
            subst hbe2
            first
            | rfl
            | exact hP hb b0 hopts))

theorem argCaseAbsPaths_inv {ext : Externals} {kind : ParseOptionsKind}
    {st st' : LoopState} {arg : String}
    (h : argCaseAbsPaths ext kind st arg = .ok st') :
    st'.opts.isBuild = st.opts.isBuild ∧ (SMInv st → SMInv st') := by
  simp only [argCaseAbsPaths] at h
  repeat' split at h
  all_goals
    first
    | exact Except.noConfusion h
    | (injection h with h
       subst h
       refine ⟨by cases st.opts <;> rfl, fun hP hb b hbe => ?_⟩
       first
       | exact Bool.noConfusion hb
       | (cases hopts : st.opts with
          | transform t0 =>
            rw [hopts] at hbe
            exact Opts.noConfusion hbe
          | build b0 =>
            rw [hopts] at hbe
            injection hbe with hbe2
            subst hbe2
            first
            | rfl
            | exact hP hb b0 hopts))

theorem argCaseSupportedColon_inv {ext : Externals} {kind : ParseOptionsKind}
    {st st' : LoopState} {arg : String}
    (h : argCaseSupportedColon ext kind st arg = .ok st') :
    st'.opts.isBuild = st.opts.isBuild ∧ (SMInv st → SMInv st') := by
  simp only [argCaseSupportedColon] at h
  repeat' split at h
  all_goals
    first
    | exact Except.noConfusion h
    | (injection h with h
       subst h
       refine ⟨by cases st.opts <;> rfl, fun hP hb b hbe => ?_⟩
       first
       | exact Bool.noConfusion hb
       | (cases hopts : st.opts with
          | transform t0 =>
            rw [hopts] at hbe
            exact Opts.noConfusion hbe
          | build b0 =>
            rw [hopts] at hbe
            injection hbe with hbe2
            subst hbe2
            first
            | rfl
            | exact hP hb b0 hopts))

theorem argCasePureColon_inv {ext : Externals} {kind : ParseOptionsKind}
    {st st' : LoopState} {arg : String}
    (h : argCasePureColon ext kind st arg = .ok st') :
    st'.opts.isBuild = st.opts.isBuild ∧ (SMInv st → SMInv st') := by
  simp only [argCasePureColon] at h
  repeat' split at h
  all_goals
    first
    | exact Except.noConfusion h
    | (injection h with h
       subst h
       refine ⟨by cases st.opts <;> rfl, fun hP hb b hbe => ?_⟩
       first
       | exact Bool.noConfusion hb
       | (cases hopts : st.opts with
          | transform t0 =>
            rw [hopts] at hbe
            exact Opts.noConfusion hbe
          | build b0 =>
            rw [hopts] at hbe
            injection hbe with hbe2
            subst hbe2
            first
            | rfl
            | exact hP hb b0 hopts))

theorem argCaseLoaderColon_inv {ext : Externals} {kind : ParseOptionsKind}
    {st st' : LoopState} {arg : String}
    (h : argCaseLoaderColon ext kind st arg = .ok st') :
    st'.opts.isBuild = st.opts.isBuild ∧ (SMInv st → SMInv st') := by
  simp only [argCaseLoaderColon] at h
  repeat' split at h
  all_goals
    first
    | exact Except.noConfusion h
    | (injection h with h
       subst h
       refine ⟨by cases st.opts <;> rfl, fun hP hb b hbe => ?_⟩
       first
       | exact Bool.noConfusion hb
       | (cases hopts : st.opts with
          | transform t0 =>
            rw [hopts] at hbe
            exact Opts.noConfusion hbe
          | build b0 =>
            rw [hopts] at hbe
            injection hbe with hbe2
            subst hbe2
            first
            | rfl
            | exact hP hb b0 hopts))

theorem argCaseLoader_inv {ext : Externals} {kind : ParseOptionsKind}
    {st st' : LoopState} {arg : String}
    (h : argCaseLoader ext kind st arg = .ok st') :
    st'.opts.isBuild = st.opts.isBuild ∧ (SMInv st → SMInv st') := by
  simp only [argCaseLoader] at h
  repeat' split at h
  all_goals
    first
    | exact Except.noConfusion h
    | (injection h with h
       subst h
       refine ⟨by cases st.opts <;> rfl, fun hP hb b hbe => ?_⟩
       first
       | exact Bool.noConfusion hb
       | (cases hopts : st.opts with
          | transform t0 =>
            rw [hopts] at hbe
            exact Opts.noConfusion hbe
          | build b0 =>
            rw [hopts] at hbe
            injection hbe with hbe2
            subst hbe2
            first
            | rfl
            | exact hP hb b0 hopts))

theorem argCaseTarget_inv {ext : Externals} {kind : ParseOptionsKind}
    {st st' : LoopState} {arg : String}
    (h : argCaseTarget ext kind st arg = .ok st') :
    st'.opts.isBuild = st.opts.isBuild ∧ (SMInv st → SMInv st') := by
  simp only [argCaseTarget] at h
  repeat' split at h
  all_goals
    first
    | exact Except.noConfusion h
    | (injection h with h
       subst h
       refine ⟨by cases st.opts <;> rfl, fun hP hb b hbe => ?_⟩
       first
       | exact Bool.noConfusion hb
       | (cases hopts : st.opts with
          | transform t0 =>
            rw [hopts] at hbe
            exact Opts.noConfusion hbe
          | build b0 =>
            rw [hopts] at hbe
            injection hbe with hbe2
            subst hbe2
            first
            | rfl
            | exact hP hb b0 hopts))

theorem argCaseOutExtensionColon_inv {ext : Externals} {kind : ParseOptionsKind}
    {st st' : LoopState} {arg : String}
    (h : argCaseOutExtensionColon ext kind st arg = .ok st') :
    st'.opts.isBuild = st.opts.isBuild ∧ (SMInv st → SMInv st') := by
  simp only [argCaseOutExtensionColon] at h
  repeat' split at h
  all_goals
    first
    | exact Except.noConfusion h
    | (injection h with h
       subst h
       refine ⟨by cases st.opts <;> rfl, fun hP hb b hbe => ?_⟩
       first
       | exact Bool.noConfusion hb
       | (cases hopts : st.opts with
          | transform t0 =>
            rw [hopts] at hbe
            exact Opts.noConfusion hbe
          | build b0 =>
            rw [hopts] at hbe
            injection hbe with hbe2
            subst hbe2
            first
            | rfl
            | exact hP hb b0 hopts))

theorem argCasePlatform_inv {ext : Externals} {kind : ParseOptionsKind}
    {st st' : LoopState} {arg : String}
    (h : argCasePlatform ext kind st arg = .ok st') :
    st'.opts.isBuild = st.opts.isBuild ∧ (SMInv st → SMInv st') := by
  simp only [argCasePlatform] at h
  repeat' split at h
  all_goals
    first
    | exact Except.noConfusion h
    | (injection h with h
       subst h
       refine ⟨by cases st.opts <;> rfl, fun hP hb b hbe => ?_⟩
       first
       | exact Bool.noConfusion hb
       | (cases hopts : st.opts with
          | transform t0 =>
            rw [hopts] at hbe
            exact Opts.noConfusion hbe
          | build b0 =>
            rw [hopts] at hbe
            injection hbe with hbe2
            subst hbe2
            first
            | rfl
            | exact hP hb b0 hopts))

theorem argCaseFormat_inv {ext : Externals} {kind : ParseOptionsKind}
    {st st' : LoopState} {arg : String}
    (h : argCaseFormat ext kind st arg = .ok st') :
    st'.opts.isBuild = st.opts.isBuild ∧ (SMInv st → SMInv st') := by
  simp only [argCaseFormat] at h
  repeat' split at h
  all_goals
    first
    | exact Except.noConfusion h
    | (injection h with h
       subst h
       refine ⟨by cases st.opts <;> rfl, fun hP hb b hbe => ?_⟩
       first
       | exact Bool.noConfusion hb
       | (cases hopts : st.opts with
          | transform t0 =>
            rw [hopts] at hbe
            exact Opts.noConfusion hbe
          | build b0 =>
            rw [hopts] at hbe
            injection hbe with hbe2
            subst hbe2
            first
            | rfl
            | exact hP hb b0 hopts))

theorem argCasePackages_inv {ext : Externals} {kind : ParseOptionsKind}
    {st st' : LoopState} {arg : String}
    (h : argCasePackages ext kind st arg = .ok st') :
    st'.opts.isBuild = st.opts.isBuild ∧ (SMInv st → SMInv st') := by
  simp only [argCasePackages] at h
  repeat' split at h
  all_goals
    first
    | exact Except.noConfusion h
    | (injection h with h
       subst h
       refine ⟨by cases st.opts <;> rfl, fun hP hb b hbe => ?_⟩
       first
       | exact Bool.noConfusion hb
       | (cases hopts : st.opts with
          | transform t0 =>
            rw [hopts] at hbe
            exact Opts.noConfusion hbe
          | build b0 =>
            rw [hopts] at hbe
            injection hbe with hbe2
            subst hbe2
            first
            | rfl
            | exact hP hb b0 hopts))

theorem argCaseExternalColon_inv {ext : Externals} {kind : ParseOptionsKind}
    {st st' : LoopState} {arg : String}
    (h : argCaseExternalColon ext kind st arg = .ok st') :
    st'.opts.isBuild = st.opts.isBuild ∧ (SMInv st → SMInv st') := by
  simp only [argCaseExternalColon] at h
  repeat' split at h
  all_goals
    first
    | exact Except.noConfusion h
    | (injection h with h
       subst h
       refine ⟨by cases st.opts <;> rfl, fun hP hb b hbe => ?_⟩
       first
       | exact Bool.noConfusion hb
       | (cases hopts : st.opts with
          | transform t0 =>
            rw [hopts] at hbe
            exact Opts.noConfusion hbe
          | build b0 =>
            rw [hopts] at hbe
            injection hbe with hbe2
            subst hbe2
            first
            | rfl
            | exact hP hb b0 hopts))

theorem argCaseInjectColon_inv {ext : Externals} {kind : ParseOptionsKind}
    {st st' : LoopState} {arg : String}
    (h : argCaseInjectColon ext kind st arg = .ok st') :
    st'.opts.isBuild = st.opts.isBuild ∧ (SMInv st → SMInv st') := by
  simp only [argCaseInjectColon] at h
  repeat' split at h
  all_goals
    first
    | exact Except.noConfusion h
    | (injection h with h
       subst h
       refine ⟨by cases st.opts <;> rfl, fun hP hb b hbe => ?_⟩
       first
       | exact Bool.noConfusion hb
       | (cases hopts : st.opts with
          | transform t0 =>
            rw [hopts] at hbe
            exact Opts.noConfusion hbe
          | build b0 =>
            rw [hopts] at hbe
            injection hbe with hbe2
            subst hbe2
            first
            | rfl
            | exact hP hb b0 hopts))

theorem argCaseAliasColon_inv {ext : Externals} {kind : ParseOptionsKind}
    {st st' : LoopState} {arg : String}
    (h : argCaseAliasColon ext kind st arg = .ok st') :
    st'.opts.isBuild = st.opts.isBuild ∧ (SMInv st → SMInv st') := by
  simp only [argCaseAliasColon] at h
  repeat' split at h
  all_goals
    first
    | exact Except.noConfusion h
    | (injection h with h
       subst h
       refine ⟨by cases st.opts <;> rfl, fun hP hb b hbe => ?_⟩
       first
       | exact Bool.noConfusion hb
       | (cases hopts : st.opts with
          | transform t0 =>
            rw [hopts] at hbe
            exact Opts.noConfusion hbe
          | build b0 =>
            rw [hopts] at hbe
            injection hbe with hbe2
            subst hbe2
            first
            | rfl
            | exact hP hb b0 hopts))

theorem argCaseJsx_inv {ext : Externals} {kind : ParseOptionsKind}
    {st st' : LoopState} {arg : String}
    (h : argCaseJsx ext kind st arg = .ok st') :
    st'.opts.isBuild = st.opts.isBuild ∧ (SMInv st → SMInv st') := by
  simp only [argCaseJsx] at h
  repeat' split at h
  all_goals
    first
    | exact Except.noConfusion h
    | (injection h with h
       subst h
       refine ⟨by cases st.opts <;> rfl, fun hP hb b hbe => ?_⟩
       first
       | exact Bool.noConfusion hb
       | (cases hopts : st.opts with
          | transform t0 =>
            rw [hopts] at hbe
            exact Opts.noConfusion hbe
          | build b0 =>
            rw [hopts] at hbe
            injection hbe with hbe2
            subst hbe2
            first
            | rfl
            | exact hP hb b0 hopts))

theorem argCaseJsxFactory_inv {ext : Externals} {kind : ParseOptionsKind}
    {st st' : LoopState} {arg : String}
    (h : argCaseJsxFactory ext kind st arg = .ok st') :
    st'.opts.isBuild = st.opts.isBuild ∧ (SMInv st → SMInv st') := by
  simp only [argCaseJsxFactory] at h
  repeat' split at h
  all_goals
    first
    | exact Except.noConfusion h
    | (injection h with h
       subst h
       refine ⟨by cases st.opts <;> rfl, fun hP hb b hbe => ?_⟩
       first
       | exact Bool.noConfusion hb
       | (cases hopts : st.opts with
          | transform t0 =>
            rw [hopts] at hbe
            exact Opts.noConfusion hbe
          | build b0 =>
            rw [hopts] at hbe
            injection hbe with hbe2
            subst hbe2
            first
            | rfl
            | exact hP hb b0 hopts))

theorem argCaseJsxFragment_inv {ext : Externals} {kind : ParseOptionsKind}
    {st st' : LoopState} {arg : String}
    (h : argCaseJsxFragment ext kind st arg = .ok st') :
    st'.opts.isBuild = st.opts.isBuild ∧ (SMInv st → SMInv st') := by
  simp only [argCaseJsxFragment] at h
  repeat' split at h
  all_goals
    first
    | exact Except.noConfusion h
    | (injection h with h
       subst h
       refine ⟨by cases st.opts <;> rfl, fun hP hb b hbe => ?_⟩
       first
       | exact Bool.noConfusion hb
       | (cases hopts : st.opts with
          | transform t0 =>
            rw [hopts] at hbe
            exact Opts.noConfusion hbe
          | build b0 =>
            rw [hopts] at hbe
            injection hbe with hbe2
            subst hbe2
            first
            | rfl
            | exact hP hb b0 hopts))

theorem argCaseJsxImportSource_inv {ext : Externals} {kind : ParseOptionsKind}
    {st st' : LoopState} {arg : String}
    (h : argCaseJsxImportSource ext kind st arg = .ok st') :
    st'.opts.isBuild = st.opts.isBuild ∧ (SMInv st → SMInv st') := by
  simp only [argCaseJsxImportSource] at h
  repeat' split at h
  all_goals
    first
    | exact Except.noConfusion h
    | (injection h with h
       subst h
       refine ⟨by cases st.opts <;> rfl, fun hP hb b hbe => ?_⟩
       first
       | exact Bool.noConfusion hb
       | (cases hopts : st.opts with
          | transform t0 =>
            rw [hopts] at hbe
            exact Opts.noConfusion hbe
          | build b0 =>
            rw [hopts] at hbe
            injection hbe with hbe2
            subst hbe2
            first
            | rfl
            | exact hP hb b0 hopts))

theorem argCaseJsxDev_inv {ext : Externals} {kind : ParseOptionsKind}
    {st st' : LoopState} {arg : String}
    (h : argCaseJsxDev ext kind st arg = .ok st') :
    st'.opts.isBuild = st.opts.isBuild ∧ (SMInv st → SMInv st') := by
  simp only [argCaseJsxDev] at h
  repeat' split at h
  all_goals
    first
    | exact Except.noConfusion h
    | (injection h with h
       subst h
       refine ⟨by cases st.opts <;> rfl, fun hP hb b hbe => ?_⟩
       first
       | exact Bool.noConfusion hb
       | (cases hopts : st.opts with
          | transform t0 =>
            rw [hopts] at hbe
            exact Opts.noConfusion hbe
          | build b0 =>
            rw [hopts] at hbe
            injection hbe with hbe2
            subst hbe2
            first
            | rfl
            | exact hP hb b0 hopts))

theorem argCaseJsxSideEffects_inv {ext : Externals} {kind : ParseOptionsKind}
    {st st' : LoopState} {arg : String}
    (h : argCaseJsxSideEffects ext kind st arg = .ok st') :
    st'.opts.isBuild = st.opts.isBuild ∧ (SMInv st → SMInv st') := by
  simp only [argCaseJsxSideEffects] at h
  repeat' split at h
  all_goals
    first
    | exact Except.noConfusion h
    | (injection h with h
       subst h
       refine ⟨by cases st.opts <;> rfl, fun hP hb b hbe => ?_⟩
       first
       | exact Bool.noConfusion hb
       | (cases hopts : st.opts with
          | transform t0 =>
            rw [hopts] at hbe
            exact Opts.noConfusion hbe
          | build b0 =>
            rw [hopts] at hbe
            injection hbe with hbe2
            subst hbe2
            first
            | rfl
            | exact hP hb b0 hopts))

theorem argCaseBanner_inv {ext : Externals} {kind : ParseOptionsKind}
    {st st' : LoopState} {arg : String}
    (h : argCaseBanner ext kind st arg = .ok st') :
    st'.opts.isBuild = st.opts.isBuild ∧ (SMInv st → SMInv st') := by
  simp only [argCaseBanner] at h
  repeat' split at h
  all_goals
    first
    | exact Except.noConfusion h
    | (injection h with h
       subst h
       refine ⟨by cases st.opts <;> rfl, fun hP hb b hbe => ?_⟩
       first
       | exact Bool.noConfusion hb
       | (cases hopts : st.opts with
          | transform t0 =>
            rw [hopts] at hbe
            exact Opts.noConfusion hbe
          | build b0 =>
            rw [hopts] at hbe
            injection hbe with hbe2
            subst hbe2
            first
            | rfl
            | exact hP hb b0 hopts))

theorem argCaseFooter_inv {ext : Externals} {kind : ParseOptionsKind}
    {st st' : LoopState} {arg : String}
    (h : argCaseFooter ext kind st arg = .ok st') :
    st'.opts.isBuild = st.opts.isBuild ∧ (SMInv st → SMInv st') := by
  simp only [argCaseFooter] at h
  repeat' split at h
  all_goals
    first
    | exact Except.noConfusion h
    | (injection h with h
       subst h
       refine ⟨by cases st.opts <;> rfl, fun hP hb b hbe => ?_⟩
       first
       | exact Bool.noConfusion hb
       | (cases hopts : st.opts with
          | transform t0 =>
            rw [hopts] at hbe
            exact Opts.noConfusion hbe
          | build b0 =>
            rw [hopts] at hbe
            injection hbe with hbe2
            subst hbe2
            first
            | rfl
            | exact hP hb b0 hopts))

theorem argCaseBannerColon_inv {ext : Externals} {kind : ParseOptionsKind}
    {st st' : LoopState} {arg : String}
    (h : argCaseBannerColon ext kind st arg = .ok st') :
    st'.opts.isBuild = st.opts.isBuild ∧ (SMInv st → SMInv st') := by
  simp only [argCaseBannerColon] at h
  repeat' split at h
  all_goals
    first
    | exact Except.noConfusion h
    | (injection h with h
       subst h
       refine ⟨by cases st.opts <;> rfl, fun hP hb b hbe => ?_⟩
       first
       | exact Bool.noConfusion hb
       | (cases hopts : st.opts with
          | transform t0 =>
            rw [hopts] at hbe
            exact Opts.noConfusion hbe
          | build b0 =>
            rw [hopts] at hbe
            injection hbe with hbe2
            subst hbe2
            first
            | rfl
            | exact hP hb b0 hopts))

theorem argCaseFooterColon_inv {ext : Externals} {kind : ParseOptionsKind}
    {st st' : LoopState} {arg : String}
    (h : argCaseFooterColon ext kind st arg = .ok st') :
    st'.opts.isBuild = st.opts.isBuild ∧ (SMInv st → SMInv st') := by
  simp only [argCaseFooterColon] at h
  repeat' split at h
  all_goals
    first
    | exact Except.noConfusion h
    | (injection h with h
       subst h
       refine ⟨by cases st.opts <;> rfl, fun hP hb b hbe => ?_⟩
       first
       | exact Bool.noConfusion hb
       | (cases hopts : st.opts with
          | transform t0 =>
            rw [hopts] at hbe
            exact Opts.noConfusion hbe
          | build b0 =>
            rw [hopts] at hbe
            injection hbe with hbe2
            subst hbe2
            first
            | rfl
            | exact hP hb b0 hopts))

theorem argCaseLogLimit_inv {ext : Externals} {kind : ParseOptionsKind}
    {st st' : LoopState} {arg : String}
    (h : argCaseLogLimit ext kind st arg = .ok st') :
    st'.opts.isBuild = st.opts.isBuild ∧ (SMInv st → SMInv st') := by
  simp only [argCaseLogLimit] at h
  repeat' split at h
  all_goals
    first
    | exact Except.noConfusion h
    | (injection h with h
       subst h
       refine ⟨by cases st.opts <;> rfl, fun hP hb b hbe => ?_⟩
       first
       | exact Bool.noConfusion hb
       | (cases hopts : st.opts with
          | transform t0 =>
            rw [hopts] at hbe
            exact Opts.noConfusion hbe
          | build b0 =>
            rw [hopts] at hbe
            injection hbe with hbe2
            subst hbe2
            first
            | rfl
            | exact hP hb b0 hopts))

theorem argCaseLineLimit_inv {ext : Externals} {kind : ParseOptionsKind}
    {st st' : LoopState} {arg : String}
    (h : argCaseLineLimit ext kind st arg = .ok st') :
    st'.opts.isBuild = st.opts.isBuild ∧ (SMInv st → SMInv st') := by
  simp only [argCaseLineLimit] at h
  repeat' split at h
  all_goals
    first
    | exact Except.noConfusion h
    | (injection h with h
       subst h
       refine ⟨by cases st.opts <;> rfl, fun hP hb b hbe => ?_⟩
       first
       | exact Bool.noConfusion hb
       | (cases hopts : st.opts with
          | transform t0 =>
            rw [hopts] at hbe
            exact Opts.noConfusion hbe
          | build b0 =>
            rw [hopts] at hbe
            injection hbe with hbe2
            subst hbe2
            first
            | rfl
            | exact hP hb b0 hopts))

theorem argCaseColor_inv {ext : Externals} {kind : ParseOptionsKind}
    {st st' : LoopState} {arg : String}
    (h : argCaseColor ext kind st arg = .ok st') :
    st'.opts.isBuild = st.opts.isBuild ∧ (SMInv st → SMInv st') := by
  simp only [argCaseColor] at h
  repeat' split at h
  all_goals
    first
    | exact Except.noConfusion h
    | (injection h with h
       subst h
       refine ⟨by cases st.opts <;> rfl, fun hP hb b hbe => ?_⟩
       first
       | exact Bool.noConfusion hb
       | (cases hopts : st.opts with
          | transform t0 =>
            rw [hopts] at hbe
            exact Opts.noConfusion hbe
          | build b0 =>
            rw [hopts] at hbe
            injection hbe with hbe2
            subst hbe2
            first
            | rfl
            | exact hP hb b0 hopts))

theorem argCaseLogLevel_inv {ext : Externals} {kind : ParseOptionsKind}
    {st st' : LoopState} {arg : String}
    (h : argCaseLogLevel ext kind st arg = .ok st') :
    st'.opts.isBuild = st.opts.isBuild ∧ (SMInv st → SMInv st') := by
  simp only [argCaseLogLevel] at h
  repeat' split at h
  all_goals
    first
    | exact Except.noConfusion h
    | (injection h with h
       subst h
       refine ⟨by cases st.opts <;> rfl, fun hP hb b hbe => ?_⟩
       first
       | exact Bool.noConfusion hb
       | (cases hopts : st.opts with
          | transform t0 =>
            rw [hopts] at hbe
            exact Opts.noConfusion hbe
          | build b0 =>
            rw [hopts] at hbe
            injection hbe with hbe2
            subst hbe2
            first
            | rfl
            | exact hP hb b0 hopts))

theorem argCaseSingleQuoted_inv {ext : Externals} {kind : ParseOptionsKind}
    {st st' : LoopState} {arg : String}
    (h : argCaseSingleQuoted ext kind st arg = .ok st') :
    st'.opts.isBuild = st.opts.isBuild ∧ (SMInv st → SMInv st') := by
  simp only [argCaseSingleQuoted] at h
  repeat' split at h
  all_goals
    first
    | exact Except.noConfusion h
    | (injection h with h
       subst h
       refine ⟨by cases st.opts <;> rfl, fun hP hb b hbe => ?_⟩
       first
       | exact Bool.noConfusion hb
       | (cases hopts : st.opts with
          | transform t0 =>
            rw [hopts] at hbe
            exact Opts.noConfusion hbe
          | build b0 =>
            rw [hopts] at hbe
            injection hbe with hbe2
            subst hbe2
            first
            | rfl
            | exact hP hb b0 hopts))

theorem argCaseEntryPoint_inv {ext : Externals} {kind : ParseOptionsKind}
    {st st' : LoopState} {arg : String}
    (h : argCaseEntryPoint ext kind st arg = .ok st') :
    st'.opts.isBuild = st.opts.isBuild ∧ (SMInv st → SMInv st') := by
  simp only [argCaseEntryPoint] at h
  repeat' split at h
  all_goals
    first
    | exact Except.noConfusion h
    | (injection h with h
       subst h
       refine ⟨by cases st.opts <;> rfl, fun hP hb b hbe => ?_⟩
       first
       | exact Bool.noConfusion hb
       | (cases hopts : st.opts with
          | transform t0 =>
            rw [hopts] at hbe
            exact Opts.noConfusion hbe
          | build b0 =>
            rw [hopts] at hbe
            injection hbe with hbe2
            subst hbe2
            first
            | rfl
            | exact hP hb b0 hopts))

theorem argCaseInvalidFlag_inv {ext : Externals} {kind : ParseOptionsKind}
    {st st' : LoopState} {arg : String}
    (h : argCaseInvalidFlag ext kind st arg = .ok st') :
    st'.opts.isBuild = st.opts.isBuild ∧ (SMInv st → SMInv st') := by
  simp only [argCaseInvalidFlag] at h
  repeat' split at h
  all_goals
    first
    | exact Except.noConfusion h
    | (injection h with h
       subst h
       refine ⟨by cases st.opts <;> rfl, fun hP hb b hbe => ?_⟩
       first
       | exact Bool.noConfusion hb
       | (cases hopts : st.opts with
          | transform t0 =>
            rw [hopts] at hbe
            exact Opts.noConfusion hbe
          | build b0 =>
            rw [hopts] at hbe
            injection hbe with hbe2
            subst hbe2
            first
            | rfl
            | exact hP hb b0 hopts))

set_option maxHeartbeats 1000000 in
/-- A successful `argStep` preserves the active mode and the
bare-sourcemap invariant. -/
theorem argStep_inv {ext : Externals} {kind : ParseOptionsKind}
    {st st' : LoopState} {arg : String}
    (h : argStep ext kind st arg = .ok st') :
    st'.opts.isBuild = st.opts.isBuild ∧ (SMInv st → SMInv st') := by
  simp only [argStep] at h
  by_cases c0 : (isBoolFlag arg "--bundle" && st.opts.isBuild) = true
  · rw [if_pos c0] at h; exact argCaseBundle_inv h
  rw [if_neg c0] at h
  by_cases c1 : (isBoolFlag arg "--preserve-symlinks" && st.opts.isBuild) = true
  · rw [if_pos c1] at h; exact argCasePreserveSymlinks_inv h
  rw [if_neg c1] at h
  by_cases c2 : (isBoolFlag arg "--splitting" && st.opts.isBuild) = true
  · rw [if_pos c2] at h; exact argCaseSplitting_inv h
  rw [if_neg c2] at h
  by_cases c3 : (isBoolFlag arg "--allow-overwrite" && st.opts.isBuild) = true
  · rw [if_pos c3] at h; exact argCaseAllowOverwrite_inv h
  rw [if_neg c3] at h
  by_cases c4 : (isBoolFlag arg "--watch" && st.opts.isBuild) = true
  · rw [if_pos c4] at h; exact argCaseWatch_inv h
  rw [if_neg c4] at h
  by_cases c5 : (goStartsWith arg "--watch-delay=" && st.opts.isBuild) = true
  · rw [if_pos c5] at h; exact argCaseWatchDelay_inv h
  rw [if_neg c5] at h
  by_cases c6 : (isBoolFlag arg "--minify") = true
  · rw [if_pos c6] at h; exact argCaseMinify_inv h
  rw [if_neg c6] at h
  by_cases c7 : (isBoolFlag arg "--minify-syntax") = true
  · rw [if_pos c7] at h; exact argCaseMinifySyntax_inv h
  rw [if_neg c7] at h
  by_cases c8 : (isBoolFlag arg "--minify-whitespace") = true
  · rw [if_pos c8] at h; exact argCaseMinifyWhitespace_inv h
  rw [if_neg c8] at h
  by_cases c9 : (isBoolFlag arg "--minify-identifiers") = true
  · rw [if_pos c9] at h; exact argCaseMinifyIdentifiers_inv h
  rw [if_neg c9] at h
  by_cases c10 : (isBoolFlag arg "--mangle-quoted") = true
  · rw [if_pos c10] at h; exact argCaseMangleQuoted_inv h
  rw [if_neg c10] at h
  by_cases c11 : (goStartsWith arg "--mangle-props=") = true
  · rw [if_pos c11] at h; exact argCaseMangleProps_inv h
  rw [if_neg c11] at h
  by_cases c12 : (goStartsWith arg "--reserve-props=") = true
  · rw [if_pos c12] at h; exact argCaseReserveProps_inv h
  rw [if_neg c12] at h
  by_cases c13 : (goStartsWith arg "--mangle-cache=" && st.opts.isBuild && kind == .kindInternal) = true
  · rw [if_pos c13] at h; exact argCaseMangleCache_inv h
  rw [if_neg c13] at h
  by_cases c14 : (goStartsWith arg "--drop:") = true
  · rw [if_pos c14] at h; exact argCaseDropColon_inv h
  rw [if_neg c14] at h
  by_cases c15 : (goStartsWith arg "--drop-labels=") = true
  · rw [if_pos c15] at h; exact argCaseDropLabels_inv h
  rw [if_neg c15] at h
  by_cases c16 : (goStartsWith arg "--legal-comments=") = true
  · rw [if_pos c16] at h; exact argCaseLegalComments_inv h
  rw [if_neg c16] at h
  by_cases c17 : (goStartsWith arg "--charset=") = true
  · rw [if_pos c17] at h; exact argCaseCharset_inv h
  rw [if_neg c17] at h
  by_cases c18 : (isBoolFlag arg "--tree-shaking") = true
  · rw [if_pos c18] at h; exact argCaseTreeShaking_inv h
  rw [if_neg c18] at h
  by_cases c19 : (isBoolFlag arg "--ignore-annotations") = true
  · rw [if_pos c19] at h; exact argCaseIgnoreAnnotations_inv h
  rw [if_neg c19] at h
  by_cases c20 : (isBoolFlag arg "--keep-names") = true
  · rw [if_pos c20] at h; exact argCaseKeepNames_inv h
  rw [if_neg c20] at h
  by_cases c21 : (goStrEq arg "--sourcemap") = true
  · rw [if_pos c21] at h; exact argCaseSourcemapBare_inv h
  rw [if_neg c21] at h
  by_cases c22 : (goStartsWith arg "--sourcemap=") = true
  · rw [if_pos c22] at h; exact argCaseSourcemap_inv h
  rw [if_neg c22] at h
  by_cases c23 : (goStartsWith arg "--source-root=") = true
  · rw [if_pos c23] at h; exact argCaseSourceRoot_inv h
  rw [if_neg c23] at h
  by_cases c24 : (isBoolFlag arg "--sources-content") = true
  · rw [if_pos c24] at h; exact argCaseSourcesContent_inv h
  rw [if_neg c24] at h
  by_cases c25 : (goStartsWith arg "--sourcefile=") = true
  · rw [if_pos c25] at h; exact argCaseSourcefile_inv h
  rw [if_neg c25] at h
  by_cases c26 : (goStartsWith arg "--resolve-extensions=" && st.opts.isBuild) = true
  · rw [if_pos c26] at h; exact argCaseResolveExtensions_inv h
  rw [if_neg c26] at h
  by_cases c27 : (goStartsWith arg "--main-fields=" && st.opts.isBuild) = true
  · rw [if_pos c27] at h; exact argCaseMainFields_inv h
  rw [if_neg c27] at h
  by_cases c28 : (goStartsWith arg "--conditions=" && st.opts.isBuild) = true
  · rw [if_pos c28] at h; exact argCaseConditions_inv h
  rw [if_neg c28] at h
  by_cases c29 : (goStartsWith arg "--public-path=" && st.opts.isBuild) = true
  · rw [if_pos c29] at h; exact argCasePublicPath_inv h
  rw [if_neg c29] at h
  by_cases c30 : (goStartsWith arg "--global-name=") = true
  · rw [if_pos c30] at h; exact argCaseGlobalName_inv h
  rw [if_neg c30] at h
  by_cases c31 : (goStrEq arg "--metafile" && st.opts.isBuild && kind == .kindExternal) = true
  · rw [if_pos c31] at h; exact argCaseMetafileBare_inv h
  rw [if_neg c31] at h
  by_cases c32 : (goStartsWith arg "--metafile=" && st.opts.isBuild && kind == .kindInternal) = true
  · rw [if_pos c32] at h; exact argCaseMetafile_inv h
  rw [if_neg c32] at h
  by_cases c33 : (goStartsWith arg "--outfile=" && st.opts.isBuild) = true
  · rw [if_pos c33] at h; exact argCaseOutfile_inv h
  rw [if_neg c33] at h
  by_cases c34 : (goStartsWith arg "--outdir=" && st.opts.isBuild) = true
  · rw [if_pos c34] at h; exact argCaseOutdir_inv h
  rw [if_neg c34] at h
  by_cases c35 : (goStartsWith arg "--outbase=" && st.opts.isBuild) = true
  · rw [if_pos c35] at h; exact argCaseOutbase_inv h
  rw [if_neg c35] at h
  by_cases c36 : (goStartsWith arg "--tsconfig=" && st.opts.isBuild) = true
  · rw [if_pos c36] at h; exact argCaseTsconfig_inv h
  rw [if_neg c36] at h
  by_cases c37 : (goStartsWith arg "--tsconfig-raw=") = true
  · rw [if_pos c37] at h; exact argCaseTsconfigRaw_inv h
  rw [if_neg c37] at h
  by_cases c38 : (goStartsWith arg "--entry-names=" && st.opts.isBuild) = true
  · rw [if_pos c38] at h; exact argCaseEntryNames_inv h
  rw [if_neg c38] at h
  by_cases c39 : (goStartsWith arg "--chunk-names=" && st.opts.isBuild) = true
  · rw [if_pos c39] at h; exact argCaseChunkNames_inv h
  rw [if_neg c39] at h
  by_cases c40 : (goStartsWith arg "--asset-names=" && st.opts.isBuild) = true
  · rw [if_pos c40] at h; exact argCaseAssetNames_inv h
  rw [if_neg c40] at h
  by_cases c41 : (goStartsWith arg "--define:") = true
  · rw [if_pos c41] at h; exact argCaseDefineColon_inv h
  rw [if_neg c41] at h
  by_cases c42 : (goStartsWith arg "--log-override:") = true
  · rw [if_pos c42] at h; exact argCaseLogOverrideColon_inv h
  rw [if_neg c42] at h
  by_cases c43 : (goStartsWith arg "--abs-paths=") = true
  · rw [if_pos c43] at h; exact argCaseAbsPaths_inv h
  rw [if_neg c43] at h
  by_cases c44 : (goStartsWith arg "--supported:") = true
  · rw [if_pos c44] at h; exact argCaseSupportedColon_inv h
  rw [if_neg c44] at h
  by_cases c45 : (goStartsWith arg "--pure:") = true
  · rw [if_pos c45] at h; exact argCasePureColon_inv h
  rw [if_neg c45] at h
  by_cases c46 : (goStartsWith arg "--loader:" && st.opts.isBuild) = true
  · rw [if_pos c46] at h; exact argCaseLoaderColon_inv h
  rw [if_neg c46] at h
  by_cases c47 : (goStartsWith arg "--loader=") = true
  · rw [if_pos c47] at h; exact argCaseLoader_inv h
  rw [if_neg c47] at h
  by_cases c48 : (goStartsWith arg "--target=") = true
  · rw [if_pos c48] at h; exact argCaseTarget_inv h
  rw [if_neg c48] at h
  by_cases c49 : (goStartsWith arg "--out-extension:" && st.opts.isBuild) = true
  · rw [if_pos c49] at h; exact argCaseOutExtensionColon_inv h
  rw [if_neg c49] at h
  by_cases c50 : (goStartsWith arg "--platform=") = true
  · rw [if_pos c50] at h; exact argCasePlatform_inv h
  rw [if_neg c50] at h
  by_cases c51 : (goStartsWith arg "--format=") = true
  · rw [if_pos c51] at h; exact argCaseFormat_inv h
  rw [if_neg c51] at h
  by_cases c52 : (goStartsWith arg "--packages=" && st.opts.isBuild) = true
  · rw [if_pos c52] at h; exact argCasePackages_inv h
  rw [if_neg c52] at h
  by_cases c53 : (goStartsWith arg "--external:" && st.opts.isBuild) = true
  · rw [if_pos c53] at h; exact argCaseExternalColon_inv h
  rw [if_neg c53] at h
  by_cases c54 : (goStartsWith arg "--inject:" && st.opts.isBuild) = true
  · rw [if_pos c54] at h; exact argCaseInjectColon_inv h
  rw [if_neg c54] at h
  by_cases c55 : (goStartsWith arg "--alias:" && st.opts.isBuild) = true
  · rw [if_pos c55] at h; exact argCaseAliasColon_inv h
  rw [if_neg c55] at h
  by_cases c56 : (goStartsWith arg "--jsx=") = true
  · rw [if_pos c56] at h; exact argCaseJsx_inv h
  rw [if_neg c56] at h
  by_cases c57 : (goStartsWith arg "--jsx-factory=") = true
  · rw [if_pos c57] at h; exact argCaseJsxFactory_inv h
  rw [if_neg c57] at h
  by_cases c58 : (goStartsWith arg "--jsx-fragment=") = true
  · rw [if_pos c58] at h; exact argCaseJsxFragment_inv h
  rw [if_neg c58] at h
  by_cases c59 : (goStartsWith arg "--jsx-import-source=") = true
  · rw [if_pos c59] at h; exact argCaseJsxImportSource_inv h
  rw [if_neg c59] at h
  by_cases c60 : (isBoolFlag arg "--jsx-dev") = true
  · rw [if_pos c60] at h; exact argCaseJsxDev_inv h
  rw [if_neg c60] at h
  by_cases c61 : (isBoolFlag arg "--jsx-side-effects") = true
  · rw [if_pos c61] at h; exact argCaseJsxSideEffects_inv h
  rw [if_neg c61] at h
  by_cases c62 : (goStartsWith arg "--banner=" && !st.opts.isBuild) = true
  · rw [if_pos c62] at h; exact argCaseBanner_inv h
  rw [if_neg c62] at h
  by_cases c63 : (goStartsWith arg "--footer=" && !st.opts.isBuild) = true
  · rw [if_pos c63] at h; exact argCaseFooter_inv h
  rw [if_neg c63] at h
  by_cases c64 : (goStartsWith arg "--banner:" && st.opts.isBuild) = true
  · rw [if_pos c64] at h; exact argCaseBannerColon_inv h
  rw [if_neg c64] at h
  by_cases c65 : (goStartsWith arg "--footer:" && st.opts.isBuild) = true
  · rw [if_pos c65] at h; exact argCaseFooterColon_inv h
  rw [if_neg c65] at h
  by_cases c66 : (goStartsWith arg "--log-limit=") = true
  · rw [if_pos c66] at h; exact argCaseLogLimit_inv h
  rw [if_neg c66] at h
  by_cases c67 : (goStartsWith arg "--line-limit=") = true
  · rw [if_pos c67] at h; exact argCaseLineLimit_inv h
  rw [if_neg c67] at h
  by_cases c68 : (isBoolFlag arg "--color") = true
  · rw [if_pos c68] at h; exact argCaseColor_inv h
  rw [if_neg c68] at h
  by_cases c69 : (goStartsWith arg "--log-level=") = true
  · rw [if_pos c69] at h; exact argCaseLogLevel_inv h
  rw [if_neg c69] at h
  by_cases c70 : (goStartsWith arg quoteDashDash) = true
  · rw [if_pos c70] at h; exact argCaseSingleQuoted_inv h
  rw [if_neg c70] at h
  by_cases c71 : (!goStartsWith arg "-" && st.opts.isBuild) = true
  · rw [if_pos c71] at h; exact argCaseEntryPoint_inv h
  rw [if_neg c71] at h
  exact argCaseInvalidFlag_inv h

/-- The whole argument loop preserves the active mode and the
bare-sourcemap invariant. -/
theorem parseArgsLoop_inv {ext : Externals} {kind : ParseOptionsKind} :
    ∀ {args : List String} {st st' : LoopState},
    parseArgsLoop ext kind st args = .ok st' →
    st'.opts.isBuild = st.opts.isBuild ∧ (SMInv st → SMInv st') := by
  intro args
  induction args with
  | nil =>
    intro st st' h
    injection h with h
    subst h
    exact ⟨rfl, id⟩
  | cons a rest ih =>
    intro st st' h
    rw [parseArgsLoop_cons] at h
    cases hs : argStep ext kind st a with
    | error e => rw [hs] at h; exact Except.noConfusion h
    | ok st1 =>
      rw [hs] at h
      obtain ⟨h1, h2⟩ := argStep_inv hs
      obtain ⟨h3, h4⟩ := ih h
      exact ⟨h3.trans h1, fun hP => h4 (h2 hP)⟩

/-- Case analysis on `parseOptionsForRun`: exactly one of build options,
transform options, or an error is produced, and the mode follows
`isArgForBuild`. -/
theorem parseOptionsForRun_cases (ext : Externals) (osArgs : List String) :
    (((parseOptionsForRun ext osArgs).buildOptions ≠ none ∧
      (parseOptionsForRun ext osArgs).transformOptions = none ∧
      (parseOptionsForRun ext osArgs).err = none) ∨
     ((parseOptionsForRun ext osArgs).buildOptions = none ∧
      (parseOptionsForRun ext osArgs).transformOptions ≠ none ∧
      (parseOptionsForRun ext osArgs).err = none) ∨
     ((parseOptionsForRun ext osArgs).buildOptions = none ∧
      (parseOptionsForRun ext osArgs).transformOptions = none ∧
      (parseOptionsForRun ext osArgs).err ≠ none)) ∧
    (osArgs.any isArgForBuild = true →
      (parseOptionsForRun ext osArgs).transformOptions = none) ∧
    (osArgs.any isArgForBuild = false →
      (parseOptionsForRun ext osArgs).buildOptions = none) := by
  unfold parseOptionsForRun
  cases hany : osArgs.any isArgForBuild with
  | true =>
    rw [if_pos (rfl : (true : Bool) = true)]
    cases hp : parseOptionsImpl ext osArgs (.build cliBuildDefaults) .kindInternal with
    | error e => exact ⟨Or.inr (Or.inr (by simp)), by simp, by simp⟩
    | ok p =>
      obtain ⟨o, exs⟩ := p
      cases o with
      | build b => exact ⟨Or.inl (by simp), by simp, by simp⟩
      | transform t => exact ⟨Or.inr (Or.inr (by simp)), by simp, by simp⟩
  | false =>
    rw [if_neg (by simp : ¬((false : Bool) = true))]
    cases hp : parseOptionsImpl ext osArgs (.transform cliTransformDefaults) .kindInternal with
    | error e => exact ⟨Or.inr (Or.inr (by simp)), by simp, by simp⟩
    | ok p =>
      obtain ⟨o, exs⟩ := p
      cases o with
      | build b => exact ⟨Or.inr (Or.inr (by simp)), by simp, by simp⟩
      | transform t =>
        cases hsm : (t.Sourcemap != SourceMap.SourceMapNone &&
            t.Sourcemap != SourceMap.SourceMapInline) with
        | true => exact ⟨Or.inr (Or.inr (by simp [hsm])), by simp [hsm], by simp [hsm]⟩
        | false => exact ⟨Or.inr (Or.inl (by simp [hsm])), by simp [hsm], by simp [hsm]⟩

theorem writeMetafile_none_no_panic (realFSErr : Bool) (dir path : String)
    (mkdirFails : Bool) (json m : String) :
    writeMetafile none realFSErr dir path mkdirFails json ≠ .panicked m := by
  unfold writeMetafile
  cases hc : (goStrEq json "" || realFSErr) with
  | true =>
    rw [if_pos (rfl : (true : Bool) = true)]
    exact fun h => WriteOutcome.noConfusion h
  | false =>
    rw [if_neg (by simp : ¬((false : Bool) = true))]
    cases mkdirFails with
    | true => exact fun h => WriteOutcome.noConfusion h
    | false => exact fun h => WriteOutcome.noConfusion h

theorem writeMangleCache_none_no_panic (realFSErr : Bool) (dir path : String)
    (mkdirFails : Bool) (printed m : String)
    (mangleCache : Option (List (String × String))) :
    writeMangleCache none realFSErr dir path mkdirFails printed mangleCache ≠ .panicked m := by
  unfold writeMangleCache
  cases hc : (mangleCache.isNone || realFSErr) with
  | true =>
    rw [if_pos (rfl : (true : Bool) = true)]
    exact fun h => WriteOutcome.noConfusion h
  | false =>
    rw [if_neg (by simp : ¬((false : Bool) = true))]
    cases mkdirFails with
    | true => exact fun h => WriteOutcome.noConfusion h
    | false => exact fun h => WriteOutcome.noConfusion h

/-! ## Claims -/

/-- C1: option parsing is deterministic: for equal argument lists, with
the same fixed build-vs-transform mode and the same parse kind, two runs
of `parseOptionsImpl` produce equal option structs, extras, and errors;
nothing besides these inputs influences the result. -/
theorem parseOptionsImpl_deterministic (ext : Externals)
    (args₁ args₂ : List String) (opts₁ opts₂ : Opts)
    (k₁ k₂ : ParseOptionsKind)
    (ha : args₁ = args₂) (ho : opts₁ = opts₂) (hk : k₁ = k₂) :
    parseOptionsImpl ext args₁ opts₁ k₁ = parseOptionsImpl ext args₂ opts₂ k₂ := by
  subst ha; subst ho; subst hk; rfl

theorem parseOptionsImpl_deterministic_witness :
    parseOptionsImpl extDefault ["--bundle"] (.build newBuildOptions) .kindInternal =
      parseOptionsImpl extDefault ["--bundle"] (.build newBuildOptions) .kindInternal :=
  parseOptionsImpl_deterministic extDefault _ _ _ _ _ _ rfl rfl rfl

/-- C2: `--format=v` parses successfully exactly for `v` equal to
`iife`, `cjs`, or `esm`, setting the corresponding `Format` value, and
errors for every other `v` without returning options. -/
theorem format_flag_correct (ext : Externals) (B : BuildOptions)
    (k : ParseOptionsKind) (v : String) :
    (v = "iife" → parseOptionsImpl ext ["--format=" ++ v] (.build B) k =
      .ok (.build { B with Format := .FormatIIFE }, {})) ∧
    (v = "cjs" → parseOptionsImpl ext ["--format=" ++ v] (.build B) k =
      .ok (.build { B with Format := .FormatCommonJS }, {})) ∧
    (v = "esm" → parseOptionsImpl ext ["--format=" ++ v] (.build B) k =
      .ok (.build { B with Format := .FormatESModule }, {})) ∧
    (v ≠ "iife" → v ≠ "cjs" → v ≠ "esm" →
      parseOptionsImpl ext ["--format=" ++ v] (.build B) k =
        .error (MakeErrorWithNote
          ("Invalid value " ++ goQuote v ++ " in " ++ goQuote ("--format=" ++ v))
          "Valid values are \"iife\", \"cjs\", or \"esm\".")) := by
  refine ⟨?_, ?_, ?_, ?_⟩
  · rintro rfl; rfl
  · rintro rfl; rfl
  · rintro rfl; rfl
  · intro h1 h2 h3
    have hch : argStep ext k ⟨.build B, {}, false⟩ ("--format=" ++ v) =
        (match (if goStrEq v "iife" then Except.ok Format.FormatIIFE
                else if goStrEq v "cjs" then Except.ok Format.FormatCommonJS
                else if goStrEq v "esm" then Except.ok Format.FormatESModule
                else Except.error (MakeErrorWithNote
                  ("Invalid value " ++ goQuote v ++ " in " ++ goQuote ("--format=" ++ v))
                  "Valid values are \"iife\", \"cjs\", or \"esm\".") :
            Except ErrorWithNote Format) with
         | .error e => .error e
         | .ok format => .ok ⟨.build { B with Format := format }, {}, false⟩) := rfl
    rw [goStrEq_false_of_ne h1, goStrEq_false_of_ne h2, goStrEq_false_of_ne h3] at hch
    exact parseOptionsImpl_error_of_loop (parseArgsLoop_error [] hch)

theorem format_flag_correct_witness :
    parseOptionsImpl extDefault ["--format=" ++ "esm"] (.build newBuildOptions) .kindInternal =
      .ok (.build { newBuildOptions with Format := .FormatESModule }, {}) ∧
    parseOptionsImpl extDefault ["--format=" ++ "es"] (.build newBuildOptions) .kindInternal =
      .error (MakeErrorWithNote
        ("Invalid value " ++ goQuote "es" ++ " in " ++ goQuote ("--format=" ++ "es"))
        "Valid values are \"iife\", \"cjs\", or \"esm\".") := by
  refine ⟨(format_flag_correct extDefault newBuildOptions .kindInternal "esm").2.2.1 rfl,
    (format_flag_correct extDefault newBuildOptions .kindInternal "es").2.2.2 ?_ ?_ ?_⟩ <;> decide

/-- C3: `--tree-shaking` and `--splitting` follow the common boolean
grammar: bare sets `true`, `=true` and `=false` set that value, any
other `=v` is a parse error; for `--tree-shaking`, `true` maps to
`TreeShakingTrue` and `false` to `TreeShakingFalse`. -/
theorem bool_flag_grammar (ext : Externals) (B : BuildOptions)
    (k : ParseOptionsKind) (v : String) :
    (parseOptionsImpl ext ["--tree-shaking"] (.build B) k =
      .ok (.build { B with TreeShaking := .TreeShakingTrue }, {})) ∧
    (parseOptionsImpl ext ["--tree-shaking=true"] (.build B) k =
      .ok (.build { B with TreeShaking := .TreeShakingTrue }, {})) ∧
    (parseOptionsImpl ext ["--tree-shaking=false"] (.build B) k =
      .ok (.build { B with TreeShaking := .TreeShakingFalse }, {})) ∧
    (v ≠ "true" → v ≠ "false" →
      parseOptionsImpl ext ["--tree-shaking=" ++ v] (.build B) k =
        .error (MakeErrorWithNote
          ("Invalid value " ++ goQuote v ++ " in " ++ goQuote ("--tree-shaking=" ++ v))
          "Valid values are \"true\" or \"false\".")) ∧
    (parseOptionsImpl ext ["--splitting"] (.build B) k =
      .ok (.build { B with Splitting := true }, {})) ∧
    (parseOptionsImpl ext ["--splitting=true"] (.build B) k =
      .ok (.build { B with Splitting := true }, {})) ∧
    (parseOptionsImpl ext ["--splitting=false"] (.build B) k =
      .ok (.build { B with Splitting := false }, {})) ∧
    (v ≠ "true" → v ≠ "false" →
      parseOptionsImpl ext ["--splitting=" ++ v] (.build B) k =
        .error (MakeErrorWithNote
          ("Invalid value " ++ goQuote v ++ " in " ++ goQuote ("--splitting=" ++ v))
          "Valid values are \"true\" or \"false\".")) := by
  refine ⟨rfl, rfl, rfl, ?_, rfl, rfl, rfl, ?_⟩
  · intro ht hf
    have hch : argStep ext k ⟨.build B, {}, false⟩ ("--tree-shaking=" ++ v) =
        (match (if goStrEq v "false" then Except.ok false
                else if goStrEq v "true" then Except.ok true
                else Except.error (MakeErrorWithNote
                  ("Invalid value " ++ goQuote v ++ " in " ++ goQuote ("--tree-shaking=" ++ v))
                  "Valid values are \"true\" or \"false\".") :
            Except ErrorWithNote Bool) with
         | .error e => .error e
         | .ok value => .ok ⟨.build { B with
             TreeShaking := if value then .TreeShakingTrue else .TreeShakingFalse }, {}, false⟩) := rfl
    rw [goStrEq_false_of_ne hf, goStrEq_false_of_ne ht] at hch
    exact parseOptionsImpl_error_of_loop (parseArgsLoop_error [] hch)
  · intro ht hf
    have hch : argStep ext k ⟨.build B, {}, false⟩ ("--splitting=" ++ v) =
        (match (if goStrEq v "false" then Except.ok false
                else if goStrEq v "true" then Except.ok true
                else Except.error (MakeErrorWithNote
                  ("Invalid value " ++ goQuote v ++ " in " ++ goQuote ("--splitting=" ++ v))
                  "Valid values are \"true\" or \"false\".") :
            Except ErrorWithNote Bool) with
         | .error e => .error e
         | .ok value => .ok ⟨.build { B with Splitting := value }, {}, false⟩) := rfl
    rw [goStrEq_false_of_ne hf, goStrEq_false_of_ne ht] at hch
    exact parseOptionsImpl_error_of_loop (parseArgsLoop_error [] hch)

theorem bool_flag_grammar_witness :
    parseOptionsImpl extDefault ["--tree-shaking"] (.build newBuildOptions) .kindInternal =
      .ok (.build { newBuildOptions with TreeShaking := .TreeShakingTrue }, {}) ∧
    parseOptionsImpl extDefault ["--tree-shaking=" ++ "maybe"] (.build newBuildOptions) .kindInternal =
      .error (MakeErrorWithNote
        ("Invalid value " ++ goQuote "maybe" ++ " in " ++ goQuote ("--tree-shaking=" ++ "maybe"))
        "Valid values are \"true\" or \"false\".") := by
  refine ⟨(bool_flag_grammar extDefault newBuildOptions .kindInternal "x").1,
    (bool_flag_grammar extDefault newBuildOptions .kindInternal "maybe").2.2.2.1 ?_ ?_⟩ <;> decide

/-- C5: when the metafile string of the build result is empty (a build
that ended with errors), `writeMetafile` returns before attempting any
filesystem action: no directory is created and no file is written. -/
theorem writeMetafile_empty_no_write (parseErr : Option ErrorWithNote)
    (realFSErr : Bool) (dir path : String) (mkdirFails : Bool) :
    writeMetafile parseErr realFSErr dir path mkdirFails "" = .skipped ∧
    (writeMetafile parseErr realFSErr dir path mkdirFails "").fsActions = [] :=
  ⟨rfl, rfl⟩

/-- C7: reachability soundness of tree-shaking: a part referenced,
directly or transitively, by a retained part is never marked for
removal. -/
theorem treeShaking_no_dangling (g : PartGraph) (p q : Nat)
    (hp : retainedPart g p) (hpath : RefPath g p q) : ¬ removedPart g q := by
  revert hp
  induction hpath with
  | direct hmem => intro hp hrem; exact hrem (Reachable.ref hp hmem)
  | step hmem _ ih => intro hp; exact ih (Reachable.ref hp hmem)

theorem treeShaking_no_dangling_witness :
    retainedPart partGraph0 0 ∧ RefPath partGraph0 0 1 ∧ ¬ removedPart partGraph0 1 := by
  have h0 : retainedPart partGraph0 0 := Reachable.seed (by simp [partGraph0])
  have hp : RefPath partGraph0 0 1 := RefPath.direct (by simp [partGraph0])
  exact ⟨h0, hp, treeShaking_no_dangling partGraph0 0 1 h0 hp⟩

/-- C8: mode selection is total and exclusive: `parseOptionsForRun`
always returns exactly one of build options, transform options, or an
error (with both option structs nil), and the build path is taken
exactly when some argument does not start with `-` or equals
`--bundle`. -/
theorem mode_selection_total_exclusive (ext : Externals) (osArgs : List String) :
    (((parseOptionsForRun ext osArgs).buildOptions ≠ none ∧
      (parseOptionsForRun ext osArgs).transformOptions = none ∧
      (parseOptionsForRun ext osArgs).err = none) ∨
     ((parseOptionsForRun ext osArgs).buildOptions = none ∧
      (parseOptionsForRun ext osArgs).transformOptions ≠ none ∧
      (parseOptionsForRun ext osArgs).err = none) ∨
     ((parseOptionsForRun ext osArgs).buildOptions = none ∧
      (parseOptionsForRun ext osArgs).transformOptions = none ∧
      (parseOptionsForRun ext osArgs).err ≠ none)) ∧
    ((∃ a ∈ osArgs, isArgForBuild a = true) →
      (parseOptionsForRun ext osArgs).transformOptions = none) ∧
    ((¬ ∃ a ∈ osArgs, isArgForBuild a = true) →
      (parseOptionsForRun ext osArgs).buildOptions = none) := by
  obtain ⟨h1, h2, h3⟩ := parseOptionsForRun_cases ext osArgs
  refine ⟨h1, fun hex => h2 ?_, fun hnex => h3 ?_⟩
  · rw [List.any_eq_true]; exact hex
  · cases hany : osArgs.any isArgForBuild with
    | false => rfl
    | true => exact absurd (List.any_eq_true.mp hany) hnex

theorem mode_selection_total_exclusive_witness :
    (parseOptionsForRun extDefault ["a.js"]).transformOptions = none ∧
    (parseOptionsForRun extDefault ["--minify"]).buildOptions = none :=
  ⟨(mode_selection_total_exclusive extDefault ["a.js"]).2.1
      ⟨"a.js", by simp, by decide⟩,
   (mode_selection_total_exclusive extDefault ["--minify"]).2.2
      (by simp; decide)⟩

/-- C6: the build branch of `runImpl` is entered only when
`parseOptionsForRun` returned no error, so the `panic(err.Text)` guards
inside the `writeMetafile` and `writeMangleCache` closures can never
fire when those closures run. -/
theorem write_closures_never_panic (ext : Externals) (osArgs : List String)
    (hb : (parseOptionsForRun ext osArgs).buildOptions ≠ none)
    (realFSErr : Bool) (dir path : String) (mkdirFails : Bool)
    (json printed m : String) (mangleCache : Option (List (String × String))) :
    writeMetafile (parseOptionsForRun ext osArgs).err realFSErr dir path
        mkdirFails json ≠ .panicked m ∧
    writeMangleCache (parseOptionsForRun ext osArgs).err realFSErr dir path
        mkdirFails printed mangleCache ≠ .panicked m := by
  have herr : (parseOptionsForRun ext osArgs).err = none := by
    rcases (parseOptionsForRun_cases ext osArgs).1 with ⟨_, _, h⟩ | ⟨h, _, _⟩ | ⟨h, _, _⟩
    · exact h
    · exact absurd h hb
    · exact absurd h hb
  rw [herr]
  exact ⟨writeMetafile_none_no_panic realFSErr dir path mkdirFails json m,
    writeMangleCache_none_no_panic realFSErr dir path mkdirFails printed m mangleCache⟩

theorem write_closures_never_panic_witness :
    writeMetafile (parseOptionsForRun extDefault ["a.js"]).err false "d" "p"
        false "{}" ≠ .panicked "boom" ∧
    writeMangleCache (parseOptionsForRun extDefault ["a.js"]).err false "d" "p"
        false "{}" (some []) ≠ .panicked "boom" :=
  write_closures_never_panic extDefault ["a.js"] (by decide)
    false "d" "p" false "{}" "{}" "boom" (some [])

/-- C4, counterexample: `'--x` does not start with `-`, yet in build
mode it is not taken as an entry point: the parser rejects it with the
unexpected-single-quote diagnostic. -/
theorem entry_point_counterexample :
    goStartsWith c4Arg "-" = false ∧
    parseOptionsImpl extDefault [c4Arg] (.build newBuildOptions) .kindInternal =
      .error (MakeErrorWithNote
        ("Unexpected single quote character before flag: " ++ c4Arg)
        singleQuoteNote) :=
  ⟨rfl, rfl⟩

/-- C4, amended: in build mode, every argument that starts with neither
`-` nor `'--` is taken as an entry point, preserving command-line
order: an argument containing `=` is appended to `EntryPointsAdvanced`
with `OutputPath` the text before the first `=` and `InputPath` the
text after it, and any other such argument is appended to
`EntryPoints` unchanged (an argument starting with `'--` is instead a
parse error). -/
theorem entry_points_ordered (ext : Externals) (k : ParseOptionsKind)
    (args : List String) (B : BuildOptions)
    (h : ∀ a ∈ args, goStartsWith a "-" = false ∧ goStartsWith a quoteDashDash = false) :
    parseOptionsImpl ext args (.build B) k =
      .ok (.build { B with
        EntryPoints := B.EntryPoints ++ args.filter (fun a => !entryHasEq a),
        EntryPointsAdvanced := B.EntryPointsAdvanced ++ (args.filter entryHasEq).map entryAdv },
        {}) := by
  rw [parseOptionsImpl_ok_of_loop (parseArgsLoop_entries ext k args B {} false h)]
  rfl

/-- C9: in build mode, when the last source-map flag seen was the bare
`--sourcemap` (the loop finishes with `hasBareSourceMapFlag` set), the
source map option is `SourceMapLinked` after the loop, and the final
option is `SourceMapInline` exactly when neither `Outfile` nor `Outdir`
is set, remaining `SourceMapLinked` when either output path is set. -/
theorem bare_sourcemap_fallback (ext : Externals) (k : ParseOptionsKind)
    (args : List String) (B : BuildOptions) (st' : LoopState)
    (hloop : parseArgsLoop ext k ⟨.build B, {}, false⟩ args = .ok st')
    (hbare : st'.hasBareSourceMapFlag = true) :
    ∃ b, st'.opts = .build b ∧ b.Sourcemap = .SourceMapLinked ∧
      parseOptionsImpl ext args (.build B) k =
        .ok (.build (if goStrEq b.Outfile "" && goStrEq b.Outdir "" then
            { b with Sourcemap := .SourceMapInline } else b), st'.extras) := by
  obtain ⟨hmode, hinv⟩ := parseArgsLoop_inv hloop
  obtain ⟨o, exx, hbf⟩ := st'
  obtain ⟨b, hb⟩ : ∃ b, o = Opts.build b := by
    cases ho : o with
    | build b => exact ⟨b, rfl⟩
    | transform t => rw [ho] at hmode; exact absurd hmode (by simp [Opts.isBuild])
  subst hb
  have hbare' : hbf = true := hbare
  subst hbare'
  have hsm : b.Sourcemap = .SourceMapLinked :=
    hinv (fun hfalse => Bool.noConfusion hfalse) rfl b rfl
  refine ⟨b, rfl, hsm, ?_⟩
  rw [parseOptionsImpl_eq_loop, hloop]
  cases hc : goStrEq b.Outfile "" && goStrEq b.Outdir "" with
  | false => simp [parseFixup, hc]
  | true => simp [parseFixup, hc]

theorem bare_sourcemap_fallback_witness :
    ∃ b, (⟨.build { newBuildOptions with Sourcemap := .SourceMapLinked }, {}, true⟩ :
        LoopState).opts = .build b ∧
      b.Sourcemap = .SourceMapLinked ∧
      parseOptionsImpl extDefault ["--sourcemap"] (.build newBuildOptions) .kindInternal =
        .ok (.build (if goStrEq b.Outfile "" && goStrEq b.Outdir "" then
            { b with Sourcemap := .SourceMapInline } else b),
          (⟨.build { newBuildOptions with Sourcemap := .SourceMapLinked }, {}, true⟩ :
            LoopState).extras) :=
  bare_sourcemap_fallback extDefault .kindInternal ["--sourcemap"] newBuildOptions
    ⟨.build { newBuildOptions with Sourcemap := .SourceMapLinked }, {}, true⟩ rfl rfl

/-- C10: for a `--serve=` value without a host part and with non-empty
port text, parsing succeeds exactly when the text is a decimal integer
in `0..65535`; out-of-range integers and non-integer text give an
error, and the in-range value `0` is mapped to the sentinel port
`-1`. -/
theorem serve_port_validation (shp : String → Except String (String × String))
    (v : String) (hnc : goContainsRune v ':' = false) (hne : v ≠ "") :
    ((∃ so rest, parseServeOptionsImpl shp ["--serve=" ++ v] = .ok (so, rest)) ↔
      ∃ p, goParseIntDec32 v = some p ∧ 0 ≤ p ∧ p ≤ 65535) ∧
    (∀ p : Int, goParseIntDec32 v = some p → 0 ≤ p → p ≤ 65535 →
      parseServeOptionsImpl shp ["--serve=" ++ v] =
        .ok ({ Port := if p == 0 then -1 else p, Host := "", Servedir := "",
               Keyfile := "", Certfile := "", Fallback := "",
               CORS := { Origin := [] } }, [])) := by
  have hch : parseServeOptionsImpl shp ["--serve=" ++ v] =
      (match (if goContainsRune v ':' then shp v
              else Except.ok ("", v) : Except String (String × String)) with
       | .error e => .error e
       | .ok (host, portText) =>
         if goStrEq portText "" then
           .ok ({ Port := 0, Host := host, Servedir := "", Keyfile := "",
                  Certfile := "", Fallback := "", CORS := { Origin := [] } }, [])
         else
           match goParseIntDec32 portText with
           | none => .error ("invalid port text: " ++ portText)
           | some port =>
             if port < 0 || port > 65535 then
               .error ("Invalid port number: " ++ portText)
             else
               .ok ({ Port := if port == 0 then -1 else port, Host := host,
                      Servedir := "", Keyfile := "", Certfile := "",
                      Fallback := "", CORS := { Origin := [] } }, [])) := rfl
  rw [hnc] at hch
  have hch2 : parseServeOptionsImpl shp ["--serve=" ++ v] =
      (if goStrEq v "" then
         Except.ok (({ Port := 0, Host := "", Servedir := "", Keyfile := "",
                       Certfile := "", Fallback := "",
                       CORS := { Origin := [] } } : ServeOptions),
                    ([] : List String))
       else
         match goParseIntDec32 v with
         | none => .error ("invalid port text: " ++ v)
         | some port =>
           if port < 0 || port > 65535 then
             .error ("Invalid port number: " ++ v)
           else
             .ok ({ Port := if port == 0 then -1 else port, Host := "",
                    Servedir := "", Keyfile := "", Certfile := "",
                    Fallback := "", CORS := { Origin := [] } }, [])) := hch
  rw [goStrEq_false_of_ne hne] at hch2
  have hch3 : parseServeOptionsImpl shp ["--serve=" ++ v] =
      (match goParseIntDec32 v with
       | none => .error ("invalid port text: " ++ v)
       | some port =>
         if port < 0 || port > 65535 then
           .error ("Invalid port number: " ++ v)
         else
           .ok ({ Port := if port == 0 then -1 else port, Host := "",
                  Servedir := "", Keyfile := "", Certfile := "",
                  Fallback := "", CORS := { Origin := [] } }, [])) := hch2
  have hmain : ∀ p : Int, goParseIntDec32 v = some p → 0 ≤ p → p ≤ 65535 →
      parseServeOptionsImpl shp ["--serve=" ++ v] =
        .ok ({ Port := if p == 0 then -1 else p, Host := "", Servedir := "",
               Keyfile := "", Certfile := "", Fallback := "",
               CORS := { Origin := [] } }, []) := by
    intro p hp h0 h65
    have hcond : ¬((p < 0 || p > 65535) = true) := by
      simp only [Bool.or_eq_true, decide_eq_true_eq, not_or]
      omega
    have h4 : parseServeOptionsImpl shp ["--serve=" ++ v] =
        (if p < 0 || p > 65535 then
           Except.error ("Invalid port number: " ++ v)
         else
           Except.ok ({ Port := if p == 0 then -1 else p, Host := "",
                        Servedir := "", Keyfile := "", Certfile := "",
                        Fallback := "", CORS := { Origin := [] } }, [])) := by
      rw [hch3, hp]
    rw [h4, if_neg hcond]
  refine ⟨⟨?_, ?_⟩, hmain⟩
  · rintro ⟨so, rest, hok⟩
    rw [hch3] at hok
    cases hp : goParseIntDec32 v with
    | none => rw [hp] at hok; exact Except.noConfusion hok
    | some p =>
      rw [hp] at hok
      replace hok : (if p < 0 || p > 65535 then
            Except.error ("Invalid port number: " ++ v)
          else
            Except.ok (({ Port := if p == 0 then -1 else p, Host := "",
                          Servedir := "", Keyfile := "", Certfile := "",
                          Fallback := "",
                          CORS := { Origin := [] } } : ServeOptions),
                       ([] : List String))) = Except.ok (so, rest) := hok
      by_cases hr : (p < 0 || p > 65535) = true
      · rw [if_pos hr] at hok; exact Except.noConfusion hok
      · simp only [Bool.or_eq_true, decide_eq_true_eq, not_or] at hr
        exact ⟨p, rfl, by omega, by omega⟩
  · rintro ⟨p, hp, h0, h65⟩
    exact ⟨_, _, hmain p hp h0 h65⟩

theorem serve_port_validation_witness :
    parseServeOptionsImpl splitHostPortDefault ["--serve=" ++ "0"] =
      .ok ({ Port := if (0 : Int) == 0 then -1 else 0, Host := "", Servedir := "",
             Keyfile := "", Certfile := "", Fallback := "",
             CORS := { Origin := [] } }, []) :=
  (serve_port_validation splitHostPortDefault "0" (by decide) (by decide)).2
    0 (by decide) (by decide) (by decide)

theorem entry_points_ordered_witness :
    parseOptionsImpl extDefault ["in.js", "out=src.js"] (.build newBuildOptions) .kindInternal =
      .ok (.build { newBuildOptions with
        EntryPoints := newBuildOptions.EntryPoints ++
          (["in.js", "out=src.js"].filter (fun a => !entryHasEq a)),
        EntryPointsAdvanced := newBuildOptions.EntryPointsAdvanced ++
          ((["in.js", "out=src.js"].filter entryHasEq).map entryAdv) }, {}) :=
  entry_points_ordered extDefault .kindInternal ["in.js", "out=src.js"] newBuildOptions
    (by decide)

end Esbuild
